import Mathlib

/-!
Verification of the geospatial aggregation core of the
C3G9_CulturedWibu air-quality repository.

The development is a shallow embedding of the TypeScript sources:

* `RadiusUtils`  embeds `src/lib/radiusUtils.ts` (zoom → radius table).
* `AirTypes`     embeds the canonical record shapes of
  `src/types/airQuality.ts`.
* `OpenaqRoute`  embeds `src/app/api/openaq/route.ts` (cache, pagination
  loop, radius filter/sort/limit, POST summary).
* `WaqiRoute`    embeds the WAQI route (same repository, second provider
  route): cache, bounds parse with limit break, radius filter/limit.
* `Overpass`     embeds the healthcare Overpass service
  (`parseOverpassResponse` deduplication).
* Real-valued geodesy (`calculateDistance`, Haversine) is embedded over
  `ℝ`; the aggregation logic, which never inspects the numeric values
  produced by the trigonometric functions, is embedded over `ℚ` and is
  parameterised by the distance / bounding-box functions so that it
  stays executable on concrete inputs.

JavaScript value semantics that the sources rely on (`x || d`
defaulting where `0`, `""`, `undefined` are falsy, `Math.round`,
`toFixed` rounding, `Math.max()` = -Infinity on no arguments, the
`NaN || 0` guard after a 0/0 division) are made explicit in the `JsSem`
namespace.
-/

namespace JsSem

/-- JavaScript `x || d` for an optional number `x`: `undefined` and `0`
are falsy and fall through to the default. -/
def jsOrQ (o : Option ℚ) (d : ℚ) : ℚ :=
  match o with
  | some q => if q = 0 then d else q
  | none => d

/-- JavaScript `x || d` for an optional count used as a list length /
page number (the routes only ever use these as non-negative integers). -/
def jsOrNat (o : Option ℕ) (d : ℕ) : ℕ :=
  match o with
  | some n => if n = 0 then d else n
  | none => d

/-- JavaScript truthiness of an optional number: defined and non-zero. -/
def truthyQ (o : Option ℚ) : Bool :=
  match o with
  | some q => q ≠ 0
  | none => false

/-- JavaScript `s || d` for an optional string: `undefined` and `""` are
falsy. -/
def jsOrStr (o : Option String) (d : String) : String :=
  match o with
  | some s => if s = "" then d else s
  | none => d

/-- JavaScript `a || b` keeping the optional shape (used for
`tags.amenity || tags.healthcare` and coordinate fallbacks). -/
def jsOrOptQ (a b : Option ℚ) : Option ℚ :=
  match a with
  | some q => if q = 0 then b else some q
  | none => b

/-- JavaScript `a || b` on optional strings, `""` falsy. -/
def jsOrOptStr (a b : Option String) : Option String :=
  match a with
  | some s => if s = "" then b else some s
  | none => b

/-- JavaScript `Math.round`: half-up rounding, `Math.round (2.5) = 3`,
`Math.round (-2.5) = -2`. -/
def jsRound (q : ℚ) : ℤ := ⌊q + 1/2⌋

/-- JavaScript `x.toFixed 4` rounding, kept as the integer number of
10⁻⁴ units (ECMA `toFixed` rounds half away from zero on the decimal
representation).  Two numbers produce the same `toFixed 4` string iff
they round to the same integer here. -/
def toFixed4 (q : ℚ) : ℤ :=
  if 0 ≤ q then ⌊q * 10000 + 1/2⌋ else -⌊-q * 10000 + 1/2⌋

/-- JavaScript `String.prototype.toLowerCase`, restricted to ASCII
(every tag value the source compares against is ASCII). -/
def jsToLowerCase (s : String) : String := String.mk (s.data.map Char.toLower)

/-- The JavaScript number special values that show up in the summary
arithmetic of the routes: a finite value (modelled exactly as a
rational), the two infinities, and `NaN`. -/
inductive JsVal where
  | num (q : ℚ)
  | posInf
  | negInf
  | nan
deriving DecidableEq, Repr

/-- JavaScript `Math.max` on two values (NaN propagates). -/
def jsMax (a b : JsVal) : JsVal :=
  match a, b with
  | .nan, _ => .nan
  | _, .nan => .nan
  | .posInf, _ => .posInf
  | _, .posInf => .posInf
  | .negInf, b => b
  | a, .negInf => a
  | .num x, .num y => .num (max x y)

/-- JavaScript `Math.min` on two values (NaN propagates). -/
def jsMin (a b : JsVal) : JsVal :=
  match a, b with
  | .nan, _ => .nan
  | _, .nan => .nan
  | .negInf, _ => .negInf
  | _, .negInf => .negInf
  | .posInf, b => b
  | a, .posInf => a
  | .num x, .num y => .num (min x y)

/-- JavaScript `Math.max(...xs)` over finite arguments: the fold starts
from `-Infinity`, which is what `Math.max()` returns on an empty
argument list. -/
def jsMaxList (l : List ℚ) : JsVal := l.foldl (fun m q => jsMax m (.num q)) .negInf

/-- JavaScript `Math.min(...xs)`: fold from `+Infinity`. -/
def jsMinList (l : List JsVal) : JsVal := l.foldl jsMin .posInf

/-- JavaScript division on finite operands: `0/0 = NaN`,
`x/0 = ±Infinity` for `x ≠ 0`. -/
def jsDiv (a b : ℚ) : JsVal :=
  if b = 0 then
    if a = 0 then .nan else if 0 < a then .posInf else .negInf
  else .num (a / b)

/-- JavaScript `v || 0` on a computed number: `NaN` and `0` are falsy
and are replaced by `0`. -/
def jsValOrZero (v : JsVal) : JsVal :=
  match v with
  | .num q => if q = 0 then .num 0 else .num q
  | .nan => .num 0
  | .posInf => .posInf
  | .negInf => .negInf

end JsSem

namespace RadiusUtils

open JsSem

/-- `ZOOM_RADIUS_MAP` from `src/lib/radiusUtils.ts`: approximate
coverage radius (km) for the integer zoom levels 1–18; absent keys give
`undefined`. -/
def ZOOM_RADIUS_MAP : ℤ → Option ℚ := fun z =>
  if z = 1 then some 2500
  else if z = 2 then some 1500
  else if z = 3 then some 800
  else if z = 4 then some 500
  else if z = 5 then some 300
  else if z = 6 then some 200
  else if z = 7 then some 150
  else if z = 8 then some 100
  else if z = 9 then some 70
  else if z = 10 then some 50
  else if z = 11 then some 30
  else if z = 12 then some 15
  else if z = 13 then some 10
  else if z = 14 then some 6
  else if z = 15 then some 3
  else if z = 16 then some (3/2)
  else if z = 17 then some (4/5)
  else if z = 18 then some (2/5)
  else none

/-- JavaScript truthiness of `ZOOM_RADIUS_MAP[z]`: present and non-zero. -/
def tableTruthy (o : Option ℚ) : Bool :=
  match o with
  | some q => q ≠ 0
  | none => false

/-- `getRadiusFromZoom` from `src/lib/radiusUtils.ts`, embedded
verbatim: clamp `Math.round zoom` to `[1, 18]`, return the table entry
when truthy, otherwise fall through to the linear-interpolation code
path (`ZOOM_RADIUS_MAP[lowerZoom] || ZOOM_RADIUS_MAP[1]` etc. with the
`||` fallbacks spelled out). -/
def getRadiusFromZoom (zoom : ℚ) : ℚ :=
  let clampedZoom : ℤ := max 1 (min 18 (jsRound zoom))
  if tableTruthy (ZOOM_RADIUS_MAP clampedZoom) then
    (ZOOM_RADIUS_MAP clampedZoom).getD 0
  else
    let lowerZoom : ℤ := ⌊zoom⌋
    let upperZoom : ℤ := ⌈zoom⌉
    let lowerRadius : ℚ := jsOrQ (ZOOM_RADIUS_MAP lowerZoom) ((ZOOM_RADIUS_MAP 1).getD 0)
    let upperRadius : ℚ := jsOrQ (ZOOM_RADIUS_MAP upperZoom) ((ZOOM_RADIUS_MAP 18).getD 0)
    let fraction : ℚ := zoom - (lowerZoom : ℚ)
    lowerRadius + (upperRadius - lowerRadius) * fraction

/-- Total version of the step table on the clamped range, for stating
what the function actually computes. -/
def tableValue (z : ℤ) : ℚ := (ZOOM_RADIUS_MAP z).getD 0

end RadiusUtils

namespace AirTypes

/-- `BoundingBox` from `src/types/airQuality.ts`. -/
structure BoundingBox where
  north : ℚ
  south : ℚ
  east : ℚ
  west : ℚ
deriving DecidableEq, Repr

/-- `AirQualityStation` from `src/types/airQuality.ts` (plus the
`o3`/`so2`/`pm10` readings the WAQI route attaches).  Coordinates and
readings are JavaScript numbers, modelled as rationals; optional fields
keep their optionality. -/
structure AirQualityStation where
  id : Option String
  name : String
  location : String
  city : Option String
  country : Option String
  lat : ℚ
  lng : ℚ
  aqi : Option ℚ
  pm25 : Option ℚ
  no2 : Option ℚ
  co : Option ℚ
  o3 : Option ℚ
  so2 : Option ℚ
  pm10 : Option ℚ
  lastUpdated : Option String
  distance : Option ℚ
  source : Option String
deriving DecidableEq, Repr

end AirTypes

namespace OpenaqRoute

open JsSem AirTypes

/-- `CACHE_DURATION = 5 * 60 * 1000` ms from
`src/app/api/openaq/route.ts`. -/
def CACHE_DURATION : ℤ := 5 * 60 * 1000

/-- The fields of the template-literal cache key
`openaq-bounds-${north}-${south}-${east}-${west}-${limit}-${page}-${parameters}`.
The literal is injective in these fields, so the key is modelled as the
tuple itself. -/
structure BoundsKey where
  north : ℚ
  south : ℚ
  east : ℚ
  west : ℚ
  limit : ℕ
  page : ℕ
  parameters : List String
deriving DecidableEq, Repr

/-- The `{ stations, total, hasMore }` object `searchByBounds` builds,
returns and caches. -/
structure BoundsResponse where
  stations : List AirQualityStation
  total : ℚ
  hasMore : Bool
deriving DecidableEq, Repr

/-- The module-level `cache : Map<string, { data, timestamp }>`,
modelled as an association list (later `Map.set`s shadow earlier
bindings). -/
abbrev Cache := List (BoundsKey × BoundsResponse × ℤ)

/-- `Map.get`. -/
def cacheLookup : Cache → BoundsKey → Option (BoundsResponse × ℤ)
  | [], _ => none
  | (k, d, t) :: rest, key => if k = key then some (d, t) else cacheLookup rest key

/-- `Map.delete`. -/
def cacheDelete : Cache → BoundsKey → Cache
  | [], _ => []
  | (k, d, t) :: rest, key =>
      if k = key then cacheDelete rest key else (k, d, t) :: cacheDelete rest key

/-- `getCachedData` from `src/app/api/openaq/route.ts`: return the
entry's data when `now - timestamp < CACHE_DURATION`, otherwise delete
the key and miss.  Returns the possibly-updated cache alongside the
result because the source mutates the module-level map in place. -/
def getCachedData (now : ℤ) (cache : Cache) (key : BoundsKey) :
    Option BoundsResponse × Cache :=
  match cacheLookup cache key with
  | some (data, timestamp) =>
      if now - timestamp < CACHE_DURATION then (some data, cache)
      else (none, cacheDelete cache key)
  | none => (none, cacheDelete cache key)

/-- `setCachedData`: `cache.set(key, { data, timestamp: Date.now() })`;
`Map.set` replaces any existing binding, modelled as
delete-then-prepend. -/
def setCachedData (now : ℤ) (key : BoundsKey) (data : BoundsResponse) (cache : Cache) :
    Cache :=
  (key, data, now) :: cacheDelete cache key

/-- One entry of a raw result's `measurements` array. -/
structure Measurement where
  parameter : String
  value : Option ℚ
  unit : Option String
  lastUpdated : Option String
deriving DecidableEq, Repr

/-- One entry of the upstream `data.results` array (the fields the
parse loop reads). -/
structure RawResult where
  location : Option String
  city : Option String
  country : Option String
  coordinatesLat : ℚ
  coordinatesLon : ℚ
  measurements : List Measurement
deriving DecidableEq, Repr

/-- `data.meta`, each field optional. -/
structure Meta where
  found : Option ℚ
  page : Option ℚ
  limit : Option ℚ
deriving DecidableEq, Repr

/-- A successfully parsed JSON body: `data.results` (optional) and
`data.meta` (optional). -/
structure OkPayload where
  results : Option (List RawResult)
  meta : Option Meta
deriving DecidableEq, Repr

/-- Outcome of one `fetch` of the OpenAQ latest endpoint: the fetch (or
`res.json()`) threw, the response was not `res.ok`, or a parsed body
came back. -/
inductive FetchOutcome where
  | fetchError
  | notOk
  | ok (payload : OkPayload)
deriving DecidableEq, Repr

/-- The mutable module state the route closes over: the cache map plus
an upstream-call counter (the counter is not in the source; it counts
`fetch` invocations so that the call-bounding claims can be stated). -/
structure St where
  cache : Cache
  fetches : ℕ
deriving DecidableEq, Repr

/-- `measurementsMap.get p` after the `forEach` that `set`s every
measurement keyed by its `parameter`: the last entry with that
parameter wins. -/
def measurementsGet (ms : List Measurement) (p : String) : Option Measurement :=
  match ms with
  | [] => none
  | m :: rest =>
      match measurementsGet rest p with
      | some r => some r
      | none => if m.parameter = p then some m else none

/-- The station object pushed for one raw result (the body of the
`for (const result of data.results || [])` loop).  `numStr` is the
JavaScript number→string rendering used inside the `id` template
literal (kept abstract: the claims never inspect `id`). -/
def mkStation (numStr : ℚ → String) (result : RawResult) : AirQualityStation :=
  let ms := result.measurements
  { id := some ("openaq-" ++ jsOrStr result.location "undefined" ++ "-"
        ++ numStr result.coordinatesLat ++ "-" ++ numStr result.coordinatesLon)
    name := jsOrStr result.location "OpenAQ Station"
    location := jsOrStr result.location "Unknown Location"
    city := some (jsOrStr result.city "")
    country := some (jsOrStr result.country "")
    lat := result.coordinatesLat
    lng := result.coordinatesLon
    aqi := none
    pm25 := (measurementsGet ms "pm25").bind Measurement.value
    no2 := (measurementsGet ms "no2").bind Measurement.value
    co := (measurementsGet ms "co").bind Measurement.value
    o3 := none
    so2 := none
    pm10 := none
    lastUpdated := jsOrOptStr (jsOrOptStr ((measurementsGet ms "pm25").bind Measurement.lastUpdated)
        ((measurementsGet ms "no2").bind Measurement.lastUpdated))
        ((measurementsGet ms "co").bind Measurement.lastUpdated)
    distance := none
    source := some "openaq" }

/-- `data.meta?.found || 0`. -/
def metaFound (m : Option Meta) : ℚ :=
  match m with
  | some mm => jsOrQ mm.found 0
  | none => 0

/-- `data.meta?.page || 1`. -/
def metaPage (m : Option Meta) : ℚ :=
  match m with
  | some mm => jsOrQ mm.page 1
  | none => 1

/-- `data.meta?.limit || 100`. -/
def metaLimit (m : Option Meta) : ℚ :=
  match m with
  | some mm => jsOrQ mm.limit 100
  | none => 100

/-- The default `parameters` argument of `searchByBounds`. -/
def defaultParameters : List String := ["pm25", "no2", "co"]

/-- The cache key `searchByBounds` builds for a query. -/
def boundsKey (bounds : BoundingBox) (limit page : ℕ) (parameters : List String) :
    BoundsKey :=
  ⟨bounds.north, bounds.south, bounds.east, bounds.west, limit, page, parameters⟩

/-- The response object built from a parsed payload: the mapped
stations, `total: data.meta?.found || 0` and
`hasMore: (data.meta?.page || 1) * (data.meta?.limit || 100) <
(data.meta?.found || 0)`. -/
def mkBoundsResponse (numStr : ℚ → String) (payload : OkPayload) : BoundsResponse :=
  { stations := (payload.results.getD []).map (mkStation numStr)
    total := metaFound payload.meta
    hasMore := metaPage payload.meta * metaLimit payload.meta < metaFound payload.meta }

/-- `searchByBounds` from `src/app/api/openaq/route.ts`: cache check,
one upstream fetch on miss, empty response on `!res.ok` or a thrown
error, otherwise the parsed stations with
`hasMore = page·limit < found` from the meta block, cached before
returning.  `upstream` stands for the network: it maps the query that
determines the request URL to the fetch outcome. -/
def searchByBounds (numStr : ℚ → String)
    (upstream : BoundingBox → ℕ → ℕ → List String → FetchOutcome)
    (now : ℤ) (bounds : BoundingBox) (limit page : ℕ) (parameters : List String)
    (st : St) : BoundsResponse × St :=
  let cacheKey := boundsKey bounds limit page parameters
  match getCachedData now st.cache cacheKey with
  | (some cached, cache1) => (cached, { st with cache := cache1 })
  | (none, cache1) =>
      let st1 : St := { cache := cache1, fetches := st.fetches + 1 }
      match upstream bounds limit page parameters with
      | .fetchError => ({ stations := [], total := 0, hasMore := false }, st1)
      | .notOk => ({ stations := [], total := 0, hasMore := false }, st1)
      | .ok payload =>
          let response := mkBoundsResponse numStr payload
          (response, { st1 with cache := setCachedData now cacheKey response st1.cache })

/-- `(s.distance || 0)`, the value the radius filter and the sort
comparator both key on (`distance!` is always `some` after the
annotation map, where the two coincide). -/
def distOrZero (s : AirQualityStation) : ℚ := jsOrQ s.distance 0

/-- The sort order of `(a, b) => (a.distance || 0) - (b.distance || 0)`. -/
def distLe (a b : AirQualityStation) : Prop := distOrZero a ≤ distOrZero b

instance : DecidableRel distLe := fun a b =>
  inferInstanceAs (Decidable (distOrZero a ≤ distOrZero b))

instance : IsTotal AirQualityStation distLe := ⟨fun a b => le_total (distOrZero a) (distOrZero b)⟩

instance : IsTrans AirQualityStation distLe := ⟨fun _ _ _ h1 h2 => le_trans h1 h2⟩

/-- The page loop of `searchByRadius`
(`for (let page = 1; page <= maxPages; page++)`): fetch the page,
append its stations, stop when the page was not truncated or the
accumulator reached `limit * 2`. -/
def radiusGo (numStr : ℚ → String)
    (upstream : BoundingBox → ℕ → ℕ → List String → FetchOutcome)
    (now : ℤ) (bounds : BoundingBox) (limit maxPages : ℕ)
    (page : ℕ) (acc : List AirQualityStation) (st : St) :
    List AirQualityStation × St :=
  if h : maxPages < page then (acc, st)
  else
    let r := searchByBounds numStr upstream now bounds limit page defaultParameters st
    let acc1 := acc ++ r.1.stations
    if r.1.hasMore = false ∨ limit * 2 ≤ acc1.length then (acc1, r.2)
    else radiusGo numStr upstream now bounds limit maxPages (page + 1) acc1 r.2
termination_by maxPages + 1 - page
decreasing_by omega

/-- `searchByRadius` from `src/app/api/openaq/route.ts`: derive the
bounding box, run the page loop from page 1, annotate every station
with its distance from the origin, keep those within `radiusKm`, sort
ascending by distance, truncate to `limit`.  `dist` and `bbox` stand
for `calculateDistance` and `getBoundingBox` (real-valued geodesy,
embedded separately); the logic here never inspects their values. -/
def searchByRadius (numStr : ℚ → String)
    (upstream : BoundingBox → ℕ → ℕ → List String → FetchOutcome)
    (dist : ℚ → ℚ → ℚ → ℚ → ℚ) (bbox : ℚ → ℚ → ℚ → BoundingBox)
    (now : ℤ) (lat lng radiusKm : ℚ) (limit maxPages : ℕ) (st : St) :
    List AirQualityStation × St :=
  let bounds := bbox lat lng radiusKm
  let r := radiusGo numStr upstream now bounds limit maxPages 1 [] st
  let annotated := r.1.map (fun station =>
    { station with distance := some (dist lat lng station.lat station.lng) })
  let filteredStations :=
    (List.insertionSort distLe
      (annotated.filter (fun station => decide (distOrZero station ≤ radiusKm)))).take limit
  (filteredStations, r.2)

/-- The in-radius candidate list of `searchByRadius`: the page-loop
output annotated with distances and filtered to the radius (steps
before the sort and the `slice(0, limit)`). -/
def radiusCandidates (numStr : ℚ → String)
    (upstream : BoundingBox → ℕ → ℕ → List String → FetchOutcome)
    (dist : ℚ → ℚ → ℚ → ℚ → ℚ) (bbox : ℚ → ℚ → ℚ → BoundingBox)
    (now : ℤ) (lat lng radiusKm : ℚ) (limit maxPages : ℕ) (st : St) :
    List AirQualityStation :=
  ((radiusGo numStr upstream now (bbox lat lng radiusKm) limit maxPages 1 [] st).1.map
    (fun station =>
      { station with distance := some (dist lat lng station.lat station.lng) })).filter
    (fun station => decide (distOrZero station ≤ radiusKm))

end OpenaqRoute

namespace OpenaqRoute

open JsSem AirTypes

/-- `(s.aqi || 0)`. -/
def aqiOrZero (s : AirQualityStation) : ℚ := jsOrQ s.aqi 0

/-- `(s.aqi || Infinity)`, the per-station value fed to `Math.min`. -/
def aqiOrInf (s : AirQualityStation) : JsVal :=
  match s.aqi with
  | some q => if q = 0 then .posInf else .num q
  | none => .posInf

/-- The `summary` object of the radius branch of `POST`. -/
structure RadiusSummary where
  centerLat : ℚ
  centerLng : ℚ
  radiusKm : ℚ
  totalStations : ℕ
  averageAQI : JsVal
  highestAQI : JsVal
  lowestAQI : JsVal
deriving DecidableEq, Repr

/-- The summary computation of the radius branch:
`averageAQI = reduce(+ (aqi||0), 0) / length || 0`,
`highestAQI = Math.max(...aqi||0)`, `lowestAQI = Math.min(...aqi||Infinity)`. -/
def mkRadiusSummary (lat lon radiusKm : ℚ) (stations : List AirQualityStation) :
    RadiusSummary :=
  { centerLat := lat
    centerLng := lon
    radiusKm := radiusKm
    totalStations := stations.length
    averageAQI := jsValOrZero
      (jsDiv (stations.foldl (fun acc s => acc + aqiOrZero s) 0) (stations.length : ℚ))
    highestAQI := jsMaxList (stations.map aqiOrZero)
    lowestAQI := jsMinList (stations.map aqiOrInf) }

/-- The request body fields the handler destructures
(`{ lat, lon, radius, limit, mode, page, maxPages }` plus `bounds`);
`limit`/`page`/`maxPages` are kept at the natural-number type the route
uses them at. -/
structure PostBody where
  lat : Option ℚ
  lon : Option ℚ
  radius : Option ℚ
  limit : Option ℕ
  mode : Option String
  page : Option ℕ
  maxPages : Option ℕ
  bounds : Option BoundingBox
deriving DecidableEq, Repr

/-- The handler responses distinguished by the claims: the 400 guard,
the radius-mode JSON, and the bounds/single-station branches (present
in the source but outside every claim, so collapsed to a marker). -/
inductive PostResult where
  | badRequest
  | radiusResp (success : Bool) (data : List AirQualityStation) (summary : RadiusSummary)
  | otherMode
deriving DecidableEq, Repr

/-- The `POST` handler of `src/app/api/openaq/route.ts`, radius
dispatch: reject non-numeric `lat`/`lon`, enter the radius branch when
`mode === "radius" || radius` is truthy, apply the `|| 100`, `|| 100`,
`|| 5` defaults, run `searchByRadius` and build the summary. -/
def POST (numStr : ℚ → String)
    (upstream : BoundingBox → ℕ → ℕ → List String → FetchOutcome)
    (dist : ℚ → ℚ → ℚ → ℚ → ℚ) (bbox : ℚ → ℚ → ℚ → BoundingBox)
    (now : ℤ) (body : PostBody) (st : St) : PostResult × St :=
  match body.lat, body.lon with
  | some lat, some lon =>
      if body.mode = some "radius" ∨ truthyQ body.radius then
        let radiusKm := jsOrQ body.radius 100
        let stationLimit := jsOrNat body.limit 100
        let pages := jsOrNat body.maxPages 5
        let r := searchByRadius numStr upstream dist bbox now lat lon radiusKm stationLimit pages st
        (.radiusResp true r.1 (mkRadiusSummary lat lon radiusKm r.1), r.2)
      else (.otherMode, st)
  | _, _ => (.badRequest, st)

/-- The `data` list of a radius-mode response (empty for the other
response shapes), used to state what the radius branch hands back. -/
def postData (r : PostResult) : List AirQualityStation :=
  match r with
  | .radiusResp _ data _ => data
  | _ => []

end OpenaqRoute

namespace WaqiRoute

open JsSem AirTypes

/-- `CACHE_DURATION = 5 * 60 * 1000` ms from the WAQI route file. -/
def CACHE_DURATION : ℤ := 5 * 60 * 1000

/-- Fields of the WAQI cache key
`waqi-bounds-${north}-${south}-${east}-${west}` (note: no limit or page
in this route's key). -/
structure WaqiKey where
  north : ℚ
  south : ℚ
  east : ℚ
  west : ℚ
deriving DecidableEq, Repr

/-- The WAQI route caches the plain station array. -/
abbrev WCache := List (WaqiKey × List AirQualityStation × ℤ)

/-- `Map.get`. -/
def cacheLookup : WCache → WaqiKey → Option (List AirQualityStation × ℤ)
  | [], _ => none
  | (k, d, t) :: rest, key => if k = key then some (d, t) else cacheLookup rest key

/-- `Map.delete`. -/
def cacheDelete : WCache → WaqiKey → WCache
  | [], _ => []
  | (k, d, t) :: rest, key =>
      if k = key then cacheDelete rest key else (k, d, t) :: cacheDelete rest key

/-- `getCachedData` from the WAQI route (identical text to the OpenAQ
one). -/
def getCachedData (now : ℤ) (cache : WCache) (key : WaqiKey) :
    Option (List AirQualityStation) × WCache :=
  match cacheLookup cache key with
  | some (data, timestamp) =>
      if now - timestamp < CACHE_DURATION then (some data, cache)
      else (none, cacheDelete cache key)
  | none => (none, cacheDelete cache key)

/-- `setCachedData` from the WAQI route. -/
def setCachedData (now : ℤ) (key : WaqiKey) (data : List AirQualityStation)
    (cache : WCache) : WCache :=
  (key, data, now) :: cacheDelete cache key

/-- One entry of the WAQI `data.data` array, at the fields the parse
loop reads.  `lat`/`lon` are kept post-`parseFloat`; the
string-vs-number `aqi` normalisation (`parseInt` on the `'-'`-guarded
string form) is modelled at the already-numeric stage since no claim
inspects WAQI AQI values. -/
structure WaqiRaw where
  lat : Option ℚ
  lon : Option ℚ
  stationName : Option String
  cityName : Option String
  countryName : Option String
  aqi : Option ℚ
  pm25 : Option ℚ
  no2 : Option ℚ
  co : Option ℚ
  o3 : Option ℚ
  so2 : Option ℚ
  pm10 : Option ℚ
  timeIso : Option String
deriving DecidableEq, Repr

/-- The station object the WAQI bounds loop pushes for one raw entry
(`numStr` renders numbers inside the `id` template literal). -/
def mkWaqiStation (numStr : ℚ → String) (raw : WaqiRaw) : AirQualityStation :=
  { id := some ("waqi-" ++ numStr (raw.lat.getD 0) ++ "-" ++ numStr (raw.lon.getD 0))
    name := jsOrStr raw.stationName "WAQI Station"
    location := jsOrStr raw.stationName "Unknown Location"
    city := raw.cityName
    country := raw.countryName
    lat := raw.lat.getD 0
    lng := raw.lon.getD 0
    aqi := some (raw.aqi.getD 0)
    pm25 := raw.pm25
    no2 := raw.no2
    co := raw.co
    o3 := raw.o3
    so2 := raw.so2
    pm10 := raw.pm10
    lastUpdated := raw.timeIso
    distance := none
    source := some "waqi" }

/-- The `for (const station of stationData)` loop: skip entries with a
falsy `lat` or `lon`, push the parsed station, `break` once
`stations.length >= limit` (the break fires after the push, so `cap`
counts remaining pushes and the last one still happens). -/
def parseGo (numStr : ℚ → String) : List WaqiRaw → ℕ → List AirQualityStation
  | [], _ => []
  | raw :: rest, cap =>
      if truthyQ raw.lat && truthyQ raw.lon then
        let s := mkWaqiStation numStr raw
        if cap ≤ 1 then [s] else s :: parseGo numStr rest (cap - 1)
      else parseGo numStr rest cap

/-- The resolved outcomes of the WAQI map/bounds fetch: non-`ok` HTTP
response, `data.status !== "ok"`, or the `data?.data || []` array.  A
`fetch` that throws instead of resolving is the remaining case; it is
modelled by `WaqiFetch` below (there is no try/catch in this file's
`searchByBounds`, so that path escapes the function as an exception). -/
inductive WaqiOutcome where
  | notOk
  | statusBad
  | ok (stationData : Option (List WaqiRaw))
deriving DecidableEq, Repr

/-- The WAQI route state: cache plus a fetch counter. -/
structure WSt where
  cache : WCache
  fetches : ℕ
deriving DecidableEq, Repr

/-- `searchByBounds` from the WAQI route: cache check, single fetch,
empty list on HTTP error or bad payload status, otherwise the parsed
stations (truncated by the in-loop `break` at `limit`), cached before
returning. -/
def searchByBounds (numStr : ℚ → String) (upstream : BoundingBox → WaqiOutcome)
    (now : ℤ) (bounds : BoundingBox) (limit : ℕ) (st : WSt) :
    List AirQualityStation × WSt :=
  let cacheKey : WaqiKey := ⟨bounds.north, bounds.south, bounds.east, bounds.west⟩
  match getCachedData now st.cache cacheKey with
  | (some cached, cache1) => (cached, { st with cache := cache1 })
  | (none, cache1) =>
      let st1 : WSt := { cache := cache1, fetches := st.fetches + 1 }
      match upstream bounds with
      | .notOk => ([], st1)
      | .statusBad => ([], st1)
      | .ok stationData =>
          let stations := parseGo numStr (stationData.getD []) limit
          (stations, { st1 with cache := setCachedData now cacheKey stations st1.cache })

/-- `searchByRadius` from the WAQI route: derive the bounding box,
fetch `limit * 2` candidates ("get more to filter"), annotate with the
true distance, keep those within `radiusKm`, `slice(0, limit)`.
Unlike the OpenAQ route there is no sort step. -/
def searchByRadius (numStr : ℚ → String) (upstream : BoundingBox → WaqiOutcome)
    (dist : ℚ → ℚ → ℚ → ℚ → ℚ) (bbox : ℚ → ℚ → ℚ → BoundingBox)
    (now : ℤ) (lat lng radiusKm : ℚ) (limit : ℕ) (st : WSt) :
    List AirQualityStation × WSt :=
  let bounds := bbox lat lng radiusKm
  let r := searchByBounds numStr upstream now bounds (limit * 2) st
  let filteredStations :=
    ((r.1.map (fun station =>
        { station with distance := some (dist lat lng station.lat station.lng) })).filter
      (fun station => decide (OpenaqRoute.distOrZero station ≤ radiusKm))).take limit
  (filteredStations, r.2)

/-- The full behaviour of the WAQI `fetch` call: it either rejects
(network error — the route has no try/catch around it, so the
exception propagates out of `searchByBounds`) or resolves to one of
the `WaqiOutcome`s. -/
inductive WaqiFetch where
  | throw
  | returns (o : WaqiOutcome)
deriving DecidableEq, Repr

/-- `searchByBounds` from the WAQI route with the thrown-fetch path
kept: the result is `Except.error ()` exactly when the un-caught
`fetch` exception escapes the function, and otherwise the same list
`searchByBounds` computes.  The state records that the fetch was
attempted; the cache write is skipped on every failure path. -/
def searchByBoundsE (numStr : ℚ → String) (upstreamE : BoundingBox → WaqiFetch)
    (now : ℤ) (bounds : BoundingBox) (limit : ℕ) (st : WSt) :
    Except Unit (List AirQualityStation) × WSt :=
  let cacheKey : WaqiKey := ⟨bounds.north, bounds.south, bounds.east, bounds.west⟩
  match getCachedData now st.cache cacheKey with
  | (some cached, cache1) => (.ok cached, { st with cache := cache1 })
  | (none, cache1) =>
      let st1 : WSt := { cache := cache1, fetches := st.fetches + 1 }
      match upstreamE bounds with
      | .throw => (.error (), st1)
      | .returns .notOk => (.ok [], st1)
      | .returns .statusBad => (.ok [], st1)
      | .returns (.ok stationData) =>
          let stations := parseGo numStr (stationData.getD []) limit
          (.ok stations, { st1 with cache := setCachedData now cacheKey stations st1.cache })

/-- `searchByRadius` over the exception-aware bounds search: the WAQI
route has no catch here either, so a thrown fetch passes straight
through. -/
def searchByRadiusE (numStr : ℚ → String) (upstreamE : BoundingBox → WaqiFetch)
    (dist : ℚ → ℚ → ℚ → ℚ → ℚ) (bbox : ℚ → ℚ → ℚ → BoundingBox)
    (now : ℤ) (lat lng radiusKm : ℚ) (limit : ℕ) (st : WSt) :
    Except Unit (List AirQualityStation) × WSt :=
  let bounds := bbox lat lng radiusKm
  match searchByBoundsE numStr upstreamE now bounds (limit * 2) st with
  | (.error e, st1) => (.error e, st1)
  | (.ok stations, st1) =>
      (.ok (((stations.map (fun station =>
          { station with distance := some (dist lat lng station.lat station.lng) })).filter
        (fun station => decide (OpenaqRoute.distOrZero station ≤ radiusKm))).take limit), st1)

/-- The body fields the WAQI handler destructures
(`{ lat, lon, radius, limit, mode }` plus `bounds`). -/
structure WPostBody where
  lat : Option ℚ
  lon : Option ℚ
  radius : Option ℚ
  limit : Option ℕ
  mode : Option String
  bounds : Option BoundingBox
deriving DecidableEq, Repr

/-- The WAQI handler responses relevant to the claims: the 400 guard,
the radius-mode JSON, the bounds/single-station branches (collapsed to
a marker), and the catch-all 500
(`{ error: "Unexpected error fetching WAQI data" }`). -/
inductive WPostResult where
  | badRequest
  | radiusResp (success : Bool) (data : List AirQualityStation)
      (summary : OpenaqRoute.RadiusSummary)
  | otherMode
  | serverError
deriving DecidableEq, Repr

/-- The WAQI `POST` handler, radius dispatch: same guard, branch
condition, defaults and summary text as the OpenAQ handler (minus the
page arguments), except that the whole body runs inside the handler's
try/catch — an exception escaping `searchByRadius` becomes the 500
`serverError`, not a station list. -/
def POST (numStr : ℚ → String) (upstreamE : BoundingBox → WaqiFetch)
    (dist : ℚ → ℚ → ℚ → ℚ → ℚ) (bbox : ℚ → ℚ → ℚ → BoundingBox)
    (now : ℤ) (body : WPostBody) (st : WSt) : WPostResult × WSt :=
  match body.lat, body.lon with
  | some lat, some lon =>
      if body.mode = some "radius" ∨ truthyQ body.radius then
        let radiusKm := jsOrQ body.radius 100
        let stationLimit := jsOrNat body.limit 100
        match searchByRadiusE numStr upstreamE dist bbox now lat lon radiusKm
            stationLimit st with
        | (.error _, st1) => (.serverError, st1)
        | (.ok stations, st1) =>
            (.radiusResp true stations
              (OpenaqRoute.mkRadiusSummary lat lon radiusKm stations), st1)
      else (.otherMode, st)
  | _, _ => (.badRequest, st)

end WaqiRoute


namespace Overpass

open JsSem

/-- The OSM tag fields the healthcare service reads
(`name`, `name:en`, `name:ms`, `amenity`, `healthcare`, the address
parts, `phone`, `website`, `opening_hours`, `emergency`, `operator`). -/
structure OverpassTags where
  name : Option String
  name_en : Option String
  name_ms : Option String
  amenity : Option String
  healthcare : Option String
  addr_full : Option String
  addr_street : Option String
  addr_city : Option String
  addr_postcode : Option String
  phone : Option String
  website : Option String
  opening_hours : Option String
  emergency : Option String
  operator : Option String
deriving DecidableEq, Repr

/-- The `{}` default of `const tags = element.tags || {}`. -/
def emptyTags : OverpassTags :=
  ⟨none, none, none, none, none, none, none, none, none, none, none, none, none, none⟩

/-- One element of the Overpass response. -/
structure OverpassElement where
  type : String
  id : ℤ
  lat : Option ℚ
  lon : Option ℚ
  center : Option (ℚ × ℚ)
  tags : Option OverpassTags
deriving DecidableEq, Repr

/-- `HealthcareFacility['type']`. -/
inductive FacilityType where
  | hospital
  | clinic
  | pharmacy
  | health_center
deriving DecidableEq, Repr

/-- `getFacilityType` (called with the already-defaulted `tags` object,
so the `if (!tags)` guard of the source cannot fire at this call site). -/
def getFacilityType (tags : OverpassTags) : FacilityType :=
  let amenity := tags.amenity.map jsToLowerCase
  let healthcare := tags.healthcare.map jsToLowerCase
  if amenity = some "hospital" ∨ healthcare = some "hospital" then .hospital
  else if amenity = some "pharmacy" then .pharmacy
  else if healthcare = some "centre" ∨ healthcare = some "center" then .health_center
  else .clinic

/-- Truthiness of an optional string. -/
def truthyStr (o : Option String) : Bool :=
  match o with
  | some s => s ≠ ""
  | none => false

/-- `if (tags[k]) parts.push(tags[k])`. -/
def truthyPush (o : Option String) : List String :=
  match o with
  | some s => if s = "" then [] else [s]
  | none => []

/-- `buildAddress` (same defaulted-`tags` call-site note as above). -/
def buildAddress (tags : OverpassTags) : Option String :=
  if truthyStr tags.addr_full then tags.addr_full
  else
    let parts := truthyPush tags.addr_street ++ truthyPush tags.addr_city
      ++ truthyPush tags.addr_postcode
    if 0 < parts.length then some (String.intercalate ", " parts) else none

/-- The canonical facility record (`HealthcareFacility`). -/
structure HealthcareFacility where
  id : String
  name : String
  type : FacilityType
  lat : ℚ
  lng : ℚ
  distance : ℚ
  address : Option String
  phone : Option String
  website : Option String
  openingHours : Option String
  emergency : Bool
  amenity : Option String
deriving DecidableEq, Repr

/-- `const lat = element.lat || element.center?.lat`. -/
def resolvedLat (e : OverpassElement) : Option ℚ :=
  jsOrOptQ e.lat (e.center.map Prod.fst)

/-- `const lon = element.lon || element.center?.lon`. -/
def resolvedLon (e : OverpassElement) : Option ℚ :=
  jsOrOptQ e.lon (e.center.map Prod.snd)

/-- `tags.name || tags['name:en'] || tags['name:ms'] || tags.operator
|| 'Unknown Facility'`. -/
def resolvedName (e : OverpassElement) : String :=
  let tags := e.tags.getD emptyTags
  jsOrStr (jsOrOptStr (jsOrOptStr (jsOrOptStr tags.name tags.name_en) tags.name_ms)
    tags.operator) "Unknown Facility"

/-- The dedup key
`` `${name}-${lat.toFixed(4)}-${lon.toFixed(4)}` `` of an element that
passes the coordinate guard (`!lat || !lon` skips the element);
`toFixed(4)` is carried as the rounded integer count of 10⁻⁴ degrees,
in which the template string is injective. -/
def elemKey (e : OverpassElement) : Option (String × ℤ × ℤ) :=
  if truthyQ (resolvedLat e) && truthyQ (resolvedLon e) then
    some (resolvedName e, toFixed4 ((resolvedLat e).getD 0), toFixed4 ((resolvedLon e).getD 0))
  else none

/-- The facility pushed for one element (`dist` stands for the
real-valued `calculateDistance`, embedded separately). -/
def mkFacility (dist : ℚ → ℚ → ℚ → ℚ → ℚ) (userLat userLng : ℚ)
    (e : OverpassElement) : HealthcareFacility :=
  let tags := e.tags.getD emptyTags
  let lat := (resolvedLat e).getD 0
  let lon := (resolvedLon e).getD 0
  { id := "osm-" ++ e.type ++ "-" ++ toString e.id
    name := resolvedName e
    type := getFacilityType tags
    lat := lat
    lng := lon
    distance := dist userLat userLng lat lon
    address := buildAddress tags
    phone := tags.phone
    website := tags.website
    openingHours := tags.opening_hours
    emergency := tags.emergency = some "yes"
    amenity := jsOrOptStr tags.amenity tags.healthcare }

/-- The dedup key recomputed from a produced facility (the facility
stores exactly the resolved name and coordinates the key was built
from). -/
def facilityKey (f : HealthcareFacility) : String × ℤ × ℤ :=
  (f.name, toFixed4 f.lat, toFixed4 f.lng)

/-- The `for (const element of elements)` loop of
`parseOverpassResponse`: skip elements without usable coordinates, skip
elements whose key is already in `seen`, otherwise add the key to
`seen` and push the facility. -/
def parseGo (dist : ℚ → ℚ → ℚ → ℚ → ℚ) (userLat userLng : ℚ) :
    List OverpassElement → List (String × ℤ × ℤ) → List HealthcareFacility
  | [], _ => []
  | e :: rest, seen =>
      match elemKey e with
      | none => parseGo dist userLat userLng rest seen
      | some key =>
          if key ∈ seen then parseGo dist userLat userLng rest seen
          else mkFacility dist userLat userLng e ::
            parseGo dist userLat userLng rest (key :: seen)

/-- The order of `facilities.sort((a, b) => a.distance - b.distance)`. -/
def fdistLe (a b : HealthcareFacility) : Prop := a.distance ≤ b.distance

instance : DecidableRel fdistLe := fun a b =>
  inferInstanceAs (Decidable (a.distance ≤ b.distance))

instance : IsTotal HealthcareFacility fdistLe := ⟨fun a b => le_total a.distance b.distance⟩

instance : IsTrans HealthcareFacility fdistLe := ⟨fun _ _ _ h1 h2 => le_trans h1 h2⟩

/-- `parseOverpassResponse` from the healthcare service: the dedup loop
started with an empty `seen` set, followed by the sort by distance. -/
def parseOverpassResponse (dist : ℚ → ℚ → ℚ → ℚ → ℚ)
    (elements : List OverpassElement) (userLat userLng : ℚ) :
    List HealthcareFacility :=
  List.insertionSort fdistLe (parseGo dist userLat userLng elements [])

end Overpass

namespace JsSem

/-- JavaScript `Math.atan2 y x` (the Haversine call sites only reach
the `x > 0` branch, but the function is embedded totally). -/
noncomputable def atan2 (y x : ℝ) : ℝ :=
  if 0 < x then Real.arctan (y / x)
  else if x < 0 then
    if 0 ≤ y then Real.arctan (y / x) + Real.pi else Real.arctan (y / x) - Real.pi
  else if 0 < y then Real.pi / 2
  else if y < 0 then -(Real.pi / 2)
  else 0

end JsSem

namespace AirTypes

/-- A bounding box over the reals, the output type of the real-valued
`getBoundingBox`. -/
structure RealBoundingBox where
  north : ℝ
  south : ℝ
  east : ℝ
  west : ℝ

end AirTypes

namespace OpenaqRoute

/-- `calculateDistance` from `src/app/api/openaq/route.ts`: Haversine
distance in kilometres, Earth radius `R = 6371`. -/
noncomputable def calculateDistance (lat1 lon1 lat2 lon2 : ℝ) : ℝ :=
  let R : ℝ := 6371
  let dLat := (lat2 - lat1) * Real.pi / 180
  let dLon := (lon2 - lon1) * Real.pi / 180
  let a := Real.sin (dLat / 2) * Real.sin (dLat / 2) +
    Real.cos (lat1 * Real.pi / 180) * Real.cos (lat2 * Real.pi / 180) *
    (Real.sin (dLon / 2) * Real.sin (dLon / 2))
  let c := 2 * JsSem.atan2 (Real.sqrt a) (Real.sqrt (1 - a))
  R * c

/-- `getBoundingBox` from `src/app/api/openaq/route.ts` (the function
the `bbox` parameter of `searchByRadius` stands for). -/
noncomputable def getBoundingBox (lat lng radiusKm : ℝ) : AirTypes.RealBoundingBox :=
  let latDelta := radiusKm / 111
  let lngDelta := radiusKm / (111 * Real.cos (lat * Real.pi / 180))
  { north := lat + latDelta
    south := lat - latDelta
    east := lng + lngDelta
    west := lng - lngDelta }

end OpenaqRoute

namespace Overpass

/-- `calculateDistance` from the healthcare service: Haversine distance
in metres, Earth radius `R = 6371e3`. -/
noncomputable def calculateDistance (lat1 lon1 lat2 lon2 : ℝ) : ℝ :=
  let R : ℝ := 6371000
  let φ1 := lat1 * Real.pi / 180
  let φ2 := lat2 * Real.pi / 180
  let dPhi := (lat2 - lat1) * Real.pi / 180
  let dLam := (lon2 - lon1) * Real.pi / 180
  let a := Real.sin (dPhi / 2) * Real.sin (dPhi / 2) +
    Real.cos φ1 * Real.cos φ2 * Real.sin (dLam / 2) * Real.sin (dLam / 2)
  let c := 2 * JsSem.atan2 (Real.sqrt a) (Real.sqrt (1 - a))
  R * c

end Overpass

namespace RadiusUtils

open JsSem

lemma tableTruthy_of_range (z : ℤ) (h1 : 1 ≤ z) (h2 : z ≤ 18) :
    tableTruthy (ZOOM_RADIUS_MAP z) = true := by
  interval_cases z <;> norm_num [ZOOM_RADIUS_MAP, tableTruthy]

lemma getRadiusFromZoom_eq (zoom : ℚ) :
    getRadiusFromZoom zoom = tableValue (max 1 (min 18 (jsRound zoom))) := by
  have h1 : (1 : ℤ) ≤ max 1 (min 18 (jsRound zoom)) := le_max_left _ _
  have h2 : max 1 (min 18 (jsRound zoom)) ≤ 18 :=
    max_le (by norm_num) (min_le_left _ _)
  unfold getRadiusFromZoom tableValue
  dsimp only
  rw [tableTruthy_of_range _ h1 h2]
  simp

lemma tableValue_strict_anti (i j : ℤ) (h1 : 1 ≤ i) (h2 : i < j) (h3 : j ≤ 18) :
    tableValue j < tableValue i := by
  have h4 : i ≤ 17 := by omega
  interval_cases i <;> interval_cases j <;> norm_num [tableValue, ZOOM_RADIUS_MAP]

/-- C8 counterexample: the claim says a fractional zoom strictly between
two defined steps returns the linear interpolation of the neighbouring
table values.  At `zoom = 2.5` the interpolation of the zoom-2 and
zoom-3 entries would be `1500 + (800 - 1500)·0.5 = 1150`, but the
function first rounds the zoom (`Math.round`, half-up) and the rounded
key always hits the table, so it returns the zoom-3 entry `800`: the
interpolation branch is dead code. -/
theorem getRadiusFromZoom_no_interpolation :
    getRadiusFromZoom (5/2) = 800 ∧
    getRadiusFromZoom (5/2) ≠ 1500 + (800 - 1500) * ((5/2 : ℚ) - 2) := by
  constructor
  · rw [getRadiusFromZoom_eq]
    norm_num [jsRound, tableValue, ZOOM_RADIUS_MAP]
  · rw [getRadiusFromZoom_eq]
    norm_num [jsRound, tableValue, ZOOM_RADIUS_MAP]

/-- C8 (amended): `getRadiusFromZoom` clamps the half-up-rounded zoom to
`[1, 18]` and always returns the step-table value at that rounded,
clamped integer zoom — defined integer steps return the table entry, and
fractional zooms take the entry of the nearest integer step rather than
an interpolation.  The step table itself is strictly decreasing from
zoom 1 (2500 km) down to zoom 18 (0.4 km). -/
theorem getRadiusFromZoom_rounds_to_table :
    (∀ zoom : ℚ, getRadiusFromZoom zoom = tableValue (max 1 (min 18 (jsRound zoom)))) ∧
    (∀ i j : ℤ, 1 ≤ i → i < j → j ≤ 18 → tableValue j < tableValue i) :=
  ⟨getRadiusFromZoom_eq, tableValue_strict_anti⟩

/-- Witness for C8 (amended) at concrete inputs: zoom `2.5` rounds to 3
and returns the zoom-3 entry, and the table strictly decreases from
zoom 2 to zoom 3. -/
theorem getRadiusFromZoom_rounds_to_table_witness :
    getRadiusFromZoom (5/2) = tableValue 3 ∧ tableValue 3 < tableValue 2 := by
  constructor
  · rw [getRadiusFromZoom_rounds_to_table.1 (5/2)]
    norm_num [jsRound]
  · exact getRadiusFromZoom_rounds_to_table.2 2 3 (by norm_num) (by norm_num) (by norm_num)

end RadiusUtils

namespace JsSem

lemma atan2_zero_one : atan2 0 1 = 0 := by
  simp [atan2]

end JsSem

namespace OpenaqRoute

lemma calculateDistance_comm (lat1 lon1 lat2 lon2 : ℝ) :
    calculateDistance lat1 lon1 lat2 lon2 = calculateDistance lat2 lon2 lat1 lon1 := by
  unfold calculateDistance
  dsimp only
  have ha :
      Real.sin ((lat1 - lat2) * Real.pi / 180 / 2) * Real.sin ((lat1 - lat2) * Real.pi / 180 / 2) +
        Real.cos (lat2 * Real.pi / 180) * Real.cos (lat1 * Real.pi / 180) *
        (Real.sin ((lon1 - lon2) * Real.pi / 180 / 2) *
          Real.sin ((lon1 - lon2) * Real.pi / 180 / 2)) =
      Real.sin ((lat2 - lat1) * Real.pi / 180 / 2) * Real.sin ((lat2 - lat1) * Real.pi / 180 / 2) +
        Real.cos (lat1 * Real.pi / 180) * Real.cos (lat2 * Real.pi / 180) *
        (Real.sin ((lon2 - lon1) * Real.pi / 180 / 2) *
          Real.sin ((lon2 - lon1) * Real.pi / 180 / 2)) := by
    rw [show (lat1 - lat2) * Real.pi / 180 / 2 = -((lat2 - lat1) * Real.pi / 180 / 2) by ring,
      Real.sin_neg,
      show (lon1 - lon2) * Real.pi / 180 / 2 = -((lon2 - lon1) * Real.pi / 180 / 2) by ring,
      Real.sin_neg]
    ring
  rw [ha]

lemma calculateDistance_self (lat lon : ℝ) :
    calculateDistance lat lon lat lon = 0 := by
  unfold calculateDistance
  dsimp only
  rw [show (lat - lat) * Real.pi / 180 / 2 = 0 by ring,
    show (lon - lon) * Real.pi / 180 / 2 = 0 by ring, Real.sin_zero]
  norm_num [JsSem.atan2_zero_one]

end OpenaqRoute

namespace Overpass

lemma overpass_calculateDistance_comm (lat1 lon1 lat2 lon2 : ℝ) :
    calculateDistance lat1 lon1 lat2 lon2 = calculateDistance lat2 lon2 lat1 lon1 := by
  unfold calculateDistance
  dsimp only
  have ha :
      Real.sin ((lat1 - lat2) * Real.pi / 180 / 2) * Real.sin ((lat1 - lat2) * Real.pi / 180 / 2) +
        Real.cos (lat2 * Real.pi / 180) * Real.cos (lat1 * Real.pi / 180) *
          Real.sin ((lon1 - lon2) * Real.pi / 180 / 2) *
          Real.sin ((lon1 - lon2) * Real.pi / 180 / 2) =
      Real.sin ((lat2 - lat1) * Real.pi / 180 / 2) * Real.sin ((lat2 - lat1) * Real.pi / 180 / 2) +
        Real.cos (lat1 * Real.pi / 180) * Real.cos (lat2 * Real.pi / 180) *
          Real.sin ((lon2 - lon1) * Real.pi / 180 / 2) *
          Real.sin ((lon2 - lon1) * Real.pi / 180 / 2) := by
    rw [show (lat1 - lat2) * Real.pi / 180 / 2 = -((lat2 - lat1) * Real.pi / 180 / 2) by ring,
      Real.sin_neg,
      show (lon1 - lon2) * Real.pi / 180 / 2 = -((lon2 - lon1) * Real.pi / 180 / 2) by ring,
      Real.sin_neg]
    ring
  rw [ha]

lemma overpass_calculateDistance_self (lat lon : ℝ) :
    calculateDistance lat lon lat lon = 0 := by
  unfold calculateDistance
  dsimp only
  rw [show (lat - lat) * Real.pi / 180 / 2 = 0 by ring,
    show (lon - lon) * Real.pi / 180 / 2 = 0 by ring, Real.sin_zero]
  norm_num [JsSem.atan2_zero_one]

end Overpass

/-- C9: for every pair of valid GeoPoints (latitudes in [-90, 90],
longitudes in [-180, 180]) both Haversine implementations of the
repository — `calculateDistance` of the OpenAQ route (kilometres) and
`calculateDistance` of the healthcare service (metres) — are symmetric
in their two points and return 0 on identical points. -/
theorem calculateDistance_symm_zero (lat1 lon1 lat2 lon2 : ℝ)
    (_h1 : -90 ≤ lat1) (_h2 : lat1 ≤ 90) (_h3 : -180 ≤ lon1) (_h4 : lon1 ≤ 180)
    (_h5 : -90 ≤ lat2) (_h6 : lat2 ≤ 90) (_h7 : -180 ≤ lon2) (_h8 : lon2 ≤ 180) :
    OpenaqRoute.calculateDistance lat1 lon1 lat2 lon2
        = OpenaqRoute.calculateDistance lat2 lon2 lat1 lon1 ∧
      OpenaqRoute.calculateDistance lat1 lon1 lat1 lon1 = 0 ∧
      Overpass.calculateDistance lat1 lon1 lat2 lon2
        = Overpass.calculateDistance lat2 lon2 lat1 lon1 ∧
      Overpass.calculateDistance lat1 lon1 lat1 lon1 = 0 :=
  ⟨OpenaqRoute.calculateDistance_comm lat1 lon1 lat2 lon2,
    OpenaqRoute.calculateDistance_self lat1 lon1,
    Overpass.overpass_calculateDistance_comm lat1 lon1 lat2 lon2,
    Overpass.overpass_calculateDistance_self lat1 lon1⟩

/-- Witness for C9 at the concrete valid points (3, 101) and (4, 102). -/
theorem calculateDistance_symm_zero_witness :
    OpenaqRoute.calculateDistance 3 101 4 102
        = OpenaqRoute.calculateDistance 4 102 3 101 ∧
      OpenaqRoute.calculateDistance 3 101 3 101 = 0 ∧
      Overpass.calculateDistance 3 101 4 102
        = Overpass.calculateDistance 4 102 3 101 ∧
      Overpass.calculateDistance 3 101 3 101 = 0 :=
  calculateDistance_symm_zero 3 101 4 102 (by norm_num) (by norm_num) (by norm_num)
    (by norm_num) (by norm_num) (by norm_num) (by norm_num) (by norm_num)

namespace OpenaqRoute

open JsSem AirTypes

/-- The OpenAQ `searchByBounds` failure behaviour: a non-success HTTP
status or a thrown fetch error (both inside this function's try/catch)
yields the empty bounds response. -/
lemma openaq_searchByBounds_error_empty
    (numStr : ℚ → String) (upstream : BoundingBox → ℕ → ℕ → List String → FetchOutcome)
    (now : ℤ) (bounds : BoundingBox) (limit page : ℕ) (parameters : List String) (st : St)
    (hmiss : (getCachedData now st.cache (boundsKey bounds limit page parameters)).1 = none)
    (herr : upstream bounds limit page parameters = FetchOutcome.fetchError ∨
      upstream bounds limit page parameters = FetchOutcome.notOk) :
    (searchByBounds numStr upstream now bounds limit page parameters st).1 =
      { stations := [], total := 0, hasMore := false } := by
  unfold searchByBounds
  dsimp only
  rcases hgc : getCachedData now st.cache (boundsKey bounds limit page parameters)
    with ⟨o, cache1⟩
  rw [hgc] at hmiss
  simp only at hmiss
  subst hmiss
  rcases herr with h | h <;> rw [h]

lemma cacheLookup_set_self (now : ℤ) (key : BoundsKey) (data : BoundsResponse)
    (cache : Cache) : cacheLookup (setCachedData now key data cache) key = some (data, now) := by
  unfold setCachedData
  rw [cacheLookup]
  simp

lemma getCachedData_after_set (now1 now2 : ℤ) (key : BoundsKey) (data : BoundsResponse)
    (cache : Cache) (h : now2 - now1 < CACHE_DURATION) :
    getCachedData now2 (setCachedData now1 key data cache) key =
      (some data, setCachedData now1 key data cache) := by
  unfold getCachedData
  rw [cacheLookup_set_self]
  simp [h]

lemma searchByBounds_miss_ok (numStr : ℚ → String)
    (upstream : BoundingBox → ℕ → ℕ → List String → FetchOutcome)
    (now : ℤ) (bounds : BoundingBox) (limit page : ℕ) (parameters : List String)
    (st : St) (payload : OkPayload)
    (hmiss : (getCachedData now st.cache (boundsKey bounds limit page parameters)).1 = none)
    (hok : upstream bounds limit page parameters = FetchOutcome.ok payload) :
    searchByBounds numStr upstream now bounds limit page parameters st =
      (mkBoundsResponse numStr payload,
        { cache := setCachedData now (boundsKey bounds limit page parameters)
            (mkBoundsResponse numStr payload)
            (getCachedData now st.cache (boundsKey bounds limit page parameters)).2
          fetches := st.fetches + 1 }) := by
  unfold searchByBounds
  dsimp only
  rcases hgc : getCachedData now st.cache (boundsKey bounds limit page parameters)
    with ⟨o, cache1⟩
  rw [hgc] at hmiss
  simp only at hmiss
  subst hmiss
  rw [hok]

lemma searchByBounds_hit (numStr : ℚ → String)
    (upstream : BoundingBox → ℕ → ℕ → List String → FetchOutcome)
    (now : ℤ) (bounds : BoundingBox) (limit page : ℕ) (parameters : List String)
    (st : St) (data : BoundsResponse)
    (hhit : (getCachedData now st.cache (boundsKey bounds limit page parameters)).1 = some data) :
    searchByBounds numStr upstream now bounds limit page parameters st =
      (data, { st with cache := (getCachedData now st.cache (boundsKey bounds limit page parameters)).2 }) := by
  unfold searchByBounds
  dsimp only
  rcases hgc : getCachedData now st.cache (boundsKey bounds limit page parameters)
    with ⟨o, cache1⟩
  rw [hgc] at hhit
  simp only at hhit
  subst hhit
  rfl

/-- C3: the TTL cache treats expiry as a miss — a lookup more than
`CACHE_DURATION` after insertion returns `none`, never the stale
payload — and a second identical `searchByBounds` query issued within
the TTL window of a first cache-missing, successful query is answered
from the cache with the identical stored response and performs no
second upstream fetch (the fetch counter is unchanged). -/
theorem cache_expiry_and_hit (numStr : ℚ → String)
    (upstream : BoundingBox → ℕ → ℕ → List String → FetchOutcome)
    (now1 now2 : ℤ) (bounds : BoundingBox) (limit page : ℕ)
    (parameters : List String) (st : St) (payload : OkPayload)
    (hmiss : (getCachedData now1 st.cache (boundsKey bounds limit page parameters)).1 = none)
    (hok : upstream bounds limit page parameters = FetchOutcome.ok payload)
    (_h12 : now1 ≤ now2) (hwin : now2 - now1 < CACHE_DURATION) :
    (∀ (now : ℤ) (cache : Cache) (key : BoundsKey) (data : BoundsResponse) (t : ℤ),
      cacheLookup cache key = some (data, t) → CACHE_DURATION < now - t →
      (getCachedData now cache key).1 = none) ∧
    (searchByBounds numStr upstream now2 bounds limit page parameters
        (searchByBounds numStr upstream now1 bounds limit page parameters st).2).1 =
      (searchByBounds numStr upstream now1 bounds limit page parameters st).1 ∧
    (searchByBounds numStr upstream now2 bounds limit page parameters
        (searchByBounds numStr upstream now1 bounds limit page parameters st).2).2.fetches =
      (searchByBounds numStr upstream now1 bounds limit page parameters st).2.fetches := by
  refine ⟨?_, ?_⟩
  · intro now cache key data t hfound hexp
    unfold getCachedData
    rw [hfound]
    have hlt : ¬ (now - t < CACHE_DURATION) := by omega
    simp [hlt]
  · rw [searchByBounds_miss_ok numStr upstream now1 bounds limit page parameters st payload
      hmiss hok]
    set st1 : St :=
      { cache := setCachedData now1 (boundsKey bounds limit page parameters)
          (mkBoundsResponse numStr payload)
          (getCachedData now1 st.cache (boundsKey bounds limit page parameters)).2,
        fetches := st.fetches + 1 } with hst1
    dsimp only
    have hhit : (getCachedData now2 st1.cache (boundsKey bounds limit page parameters)).1 =
        some (mkBoundsResponse numStr payload) := by
      rw [hst1]
      dsimp only
      rw [getCachedData_after_set now1 now2 _ _ _ hwin]
    rw [searchByBounds_hit numStr upstream now2 bounds limit page parameters st1
      (mkBoundsResponse numStr payload) hhit]
    exact ⟨rfl, rfl⟩

end OpenaqRoute

namespace OpenaqRoute

open JsSem AirTypes

lemma searchByBounds_fetches_le (numStr : ℚ → String)
    (upstream : BoundingBox → ℕ → ℕ → List String → FetchOutcome)
    (now : ℤ) (bounds : BoundingBox) (limit page : ℕ) (parameters : List String)
    (st : St) :
    (searchByBounds numStr upstream now bounds limit page parameters st).2.fetches ≤
      st.fetches + 1 := by
  unfold searchByBounds
  dsimp only
  rcases hgc : getCachedData now st.cache (boundsKey bounds limit page parameters)
    with ⟨o, cache1⟩
  cases o with
  | some data => simp
  | none => cases upstream bounds limit page parameters <;> simp

lemma radiusGo_fetches_le_fuel (numStr : ℚ → String)
    (upstream : BoundingBox → ℕ → ℕ → List String → FetchOutcome)
    (now : ℤ) (bounds : BoundingBox) (limit maxPages : ℕ) :
    ∀ (n page : ℕ) (acc : List AirQualityStation) (st : St),
      maxPages + 1 - page ≤ n →
      (radiusGo numStr upstream now bounds limit maxPages page acc st).2.fetches ≤
        st.fetches + (maxPages + 1 - page) := by
  intro n
  induction n with
  | zero =>
      intro page acc st hn
      rw [radiusGo, dif_pos (by omega : maxPages < page)]
      simp
  | succ n ih =>
      intro page acc st hn
      rw [radiusGo]
      by_cases hp : maxPages < page
      · rw [dif_pos hp]
        simp
      · rw [dif_neg hp]
        dsimp only
        by_cases hbreak :
            (searchByBounds numStr upstream now bounds limit page defaultParameters st).1.hasMore
                = false ∨
              limit * 2 ≤ (acc ++
                (searchByBounds numStr upstream now bounds limit page
                  defaultParameters st).1.stations).length
        · rw [if_pos hbreak]
          dsimp only
          have h1 := searchByBounds_fetches_le numStr upstream now bounds limit page
            defaultParameters st
          omega
        · rw [if_neg hbreak]
          have h1 := searchByBounds_fetches_le numStr upstream now bounds limit page
            defaultParameters st
          have h2 := ih (page + 1)
            (acc ++ (searchByBounds numStr upstream now bounds limit page
              defaultParameters st).1.stations)
            (searchByBounds numStr upstream now bounds limit page defaultParameters st).2
            (by omega)
          omega

lemma radiusGo_fetches_le (numStr : ℚ → String)
    (upstream : BoundingBox → ℕ → ℕ → List String → FetchOutcome)
    (now : ℤ) (bounds : BoundingBox) (limit maxPages : ℕ)
    (page : ℕ) (acc : List AirQualityStation) (st : St) :
    (radiusGo numStr upstream now bounds limit maxPages page acc st).2.fetches ≤
      st.fetches + (maxPages + 1 - page) :=
  radiusGo_fetches_le_fuel numStr upstream now bounds limit maxPages
    (maxPages + 1 - page) page acc st le_rfl

lemma radiusGo_stop (numStr : ℚ → String)
    (upstream : BoundingBox → ℕ → ℕ → List String → FetchOutcome)
    (now : ℤ) (bounds : BoundingBox) (limit maxPages : ℕ)
    (page : ℕ) (acc : List AirQualityStation) (st : St)
    (hacc : limit * 2 ≤ acc.length) :
    (radiusGo numStr upstream now bounds limit maxPages page acc st).2.fetches ≤
      st.fetches + 1 := by
  rw [radiusGo]
  by_cases hp : maxPages < page
  · rw [dif_pos hp]
    simp
  · rw [dif_neg hp]
    dsimp only
    rw [if_pos (Or.inr (by
      rw [List.length_append]
      omega))]
    exact searchByBounds_fetches_le numStr upstream now bounds limit page
      defaultParameters st

/-- C4: the OpenAQ radius search performs at most `maxPages` upstream
page fetches per query (default 5 via the handler's `|| 5`), and the
page loop stops as soon as the accumulated station count has reached
`2 × limit`: from any loop state whose accumulator already holds
`2 × limit` records, at most one further page is fetched.  Hence the
number of upstream calls per query is bounded. -/
theorem radius_page_calls_bounded (numStr : ℚ → String)
    (upstream : BoundingBox → ℕ → ℕ → List String → FetchOutcome)
    (dist : ℚ → ℚ → ℚ → ℚ → ℚ) (bbox : ℚ → ℚ → ℚ → BoundingBox)
    (now : ℤ) (lat lng radiusKm : ℚ) (limit maxPages : ℕ) (st : St) :
    ((searchByRadius numStr upstream dist bbox now lat lng radiusKm limit maxPages st).2.fetches
      ≤ st.fetches + maxPages) ∧
    (∀ (page : ℕ) (acc : List AirQualityStation) (st2 : St),
      limit * 2 ≤ acc.length →
      (radiusGo numStr upstream now (bbox lat lng radiusKm) limit maxPages page acc st2).2.fetches
        ≤ st2.fetches + 1) := by
  constructor
  · have h := radiusGo_fetches_le numStr upstream now (bbox lat lng radiusKm) limit maxPages
      1 [] st
    unfold searchByRadius
    dsimp only
    omega
  · intro page acc st2 hacc
    exact radiusGo_stop numStr upstream now (bbox lat lng radiusKm) limit maxPages page acc
      st2 hacc

end OpenaqRoute

namespace OpenaqRoute

open JsSem AirTypes

lemma searchByRadius_fst (numStr : ℚ → String)
    (upstream : BoundingBox → ℕ → ℕ → List String → FetchOutcome)
    (dist : ℚ → ℚ → ℚ → ℚ → ℚ) (bbox : ℚ → ℚ → ℚ → BoundingBox)
    (now : ℤ) (lat lng radiusKm : ℚ) (limit maxPages : ℕ) (st : St) :
    (searchByRadius numStr upstream dist bbox now lat lng radiusKm limit maxPages st).1 =
      (List.insertionSort distLe
        (radiusCandidates numStr upstream dist bbox now lat lng radiusKm limit maxPages st)).take
        limit := rfl

lemma distOrZero_annotated (t : AirQualityStation) (d radiusKm : ℚ)
    (h : distOrZero { t with distance := some d } ≤ radiusKm) : d ≤ radiusKm := by
  unfold distOrZero jsOrQ at h
  dsimp only at h
  by_cases hd : d = 0
  · rw [hd]
    rw [if_pos hd] at h
    exact h
  · rw [if_neg hd] at h
    exact h

end OpenaqRoute

namespace WaqiRoute

open JsSem AirTypes

lemma waqi_searchByRadius_fst (numStr : ℚ → String) (upstream : BoundingBox → WaqiOutcome)
    (dist : ℚ → ℚ → ℚ → ℚ → ℚ) (bbox : ℚ → ℚ → ℚ → BoundingBox)
    (now : ℤ) (lat lng radiusKm : ℚ) (limit : ℕ) (st : WSt) :
    (searchByRadius numStr upstream dist bbox now lat lng radiusKm limit st).1 =
      (((searchByBounds numStr upstream now (bbox lat lng radiusKm) (limit * 2) st).1.map
        (fun station =>
          { station with distance := some (dist lat lng station.lat station.lng) })).filter
        (fun station => decide (OpenaqRoute.distOrZero station ≤ radiusKm))).take limit := rfl

end WaqiRoute

/-- C1: for every radius query, every record returned by either
provider route carries an annotated distance from the query origin that
is at most the requested radius: after the bounding-box pre-filter, an
exact per-record distance filter runs before the response is built, in
both the OpenAQ and the WAQI `searchByRadius`. -/
theorem radius_results_within_radius (numStr wnumStr : ℚ → String)
    (upstream : AirTypes.BoundingBox → ℕ → ℕ → List String → OpenaqRoute.FetchOutcome)
    (wupstream : AirTypes.BoundingBox → WaqiRoute.WaqiOutcome)
    (dist : ℚ → ℚ → ℚ → ℚ → ℚ) (bbox : ℚ → ℚ → ℚ → AirTypes.BoundingBox)
    (now wnow : ℤ) (lat lng radiusKm : ℚ) (limit maxPages wlimit : ℕ)
    (st : OpenaqRoute.St) (wst : WaqiRoute.WSt) :
    (∀ s ∈ (OpenaqRoute.searchByRadius numStr upstream dist bbox now lat lng radiusKm
        limit maxPages st).1, ∃ d, s.distance = some d ∧ d ≤ radiusKm) ∧
    (∀ s ∈ (WaqiRoute.searchByRadius wnumStr wupstream dist bbox wnow lat lng radiusKm
        wlimit wst).1, ∃ d, s.distance = some d ∧ d ≤ radiusKm) := by
  constructor
  · intro s hs
    rw [OpenaqRoute.searchByRadius_fst] at hs
    have hs1 := List.mem_of_mem_take hs
    have hs2 := (List.perm_insertionSort OpenaqRoute.distLe _).mem_iff.1 hs1
    unfold OpenaqRoute.radiusCandidates at hs2
    obtain ⟨hmem, hpred⟩ := List.mem_filter.1 hs2
    obtain ⟨t, ht, rfl⟩ := List.mem_map.1 hmem
    refine ⟨dist lat lng t.lat t.lng, rfl, ?_⟩
    exact OpenaqRoute.distOrZero_annotated t _ radiusKm (of_decide_eq_true hpred)
  · intro s hs
    rw [WaqiRoute.waqi_searchByRadius_fst] at hs
    have hs1 := List.mem_of_mem_take hs
    obtain ⟨hmem, hpred⟩ := List.mem_filter.1 hs1
    obtain ⟨t, ht, rfl⟩ := List.mem_map.1 hmem
    refine ⟨dist lat lng t.lat t.lng, rfl, ?_⟩
    exact OpenaqRoute.distOrZero_annotated t _ radiusKm (of_decide_eq_true hpred)

/-- C2 (amended): radius results of the OpenAQ route are sorted
ascending by annotated distance and truncated to the requested limit —
with 7 in-radius candidates and limit 5, exactly 5 records come back
(`length = min limit candidates`) in ascending distance order.  The
WAQI route truncates to the limit as well but returns the surviving
records in upstream order without a sort step. -/
theorem radius_sorted_and_truncated (numStr wnumStr : ℚ → String)
    (upstream : AirTypes.BoundingBox → ℕ → ℕ → List String → OpenaqRoute.FetchOutcome)
    (wupstream : AirTypes.BoundingBox → WaqiRoute.WaqiOutcome)
    (dist : ℚ → ℚ → ℚ → ℚ → ℚ) (bbox : ℚ → ℚ → ℚ → AirTypes.BoundingBox)
    (now wnow : ℤ) (lat lng radiusKm : ℚ) (limit maxPages wlimit : ℕ)
    (st : OpenaqRoute.St) (wst : WaqiRoute.WSt) :
    List.Pairwise OpenaqRoute.distLe
      (OpenaqRoute.searchByRadius numStr upstream dist bbox now lat lng radiusKm
        limit maxPages st).1 ∧
    (OpenaqRoute.searchByRadius numStr upstream dist bbox now lat lng radiusKm
        limit maxPages st).1.length =
      min limit (OpenaqRoute.radiusCandidates numStr upstream dist bbox now lat lng radiusKm
        limit maxPages st).length ∧
    (WaqiRoute.searchByRadius wnumStr wupstream dist bbox wnow lat lng radiusKm
        wlimit wst).1.length ≤ wlimit := by
  refine ⟨?_, ?_, ?_⟩
  · rw [OpenaqRoute.searchByRadius_fst]
    exact List.Pairwise.sublist (List.take_sublist _ _)
      (List.sorted_insertionSort OpenaqRoute.distLe _)
  · rw [OpenaqRoute.searchByRadius_fst, List.length_take,
      (List.perm_insertionSort OpenaqRoute.distLe _).length_eq]
  · rw [WaqiRoute.waqi_searchByRadius_fst]
    exact List.length_take_le _ _

namespace OpenaqRoute

open JsSem AirTypes

lemma searchByRadius_neg_empty (numStr : ℚ → String)
    (upstream : BoundingBox → ℕ → ℕ → List String → FetchOutcome)
    (dist : ℚ → ℚ → ℚ → ℚ → ℚ) (bbox : ℚ → ℚ → ℚ → BoundingBox)
    (now : ℤ) (lat lng radiusKm : ℚ) (limit maxPages : ℕ) (st : St)
    (hneg : radiusKm < 0) (hdist : ∀ a b c d, 0 ≤ dist a b c d) :
    (searchByRadius numStr upstream dist bbox now lat lng radiusKm limit maxPages st).1 = [] := by
  rw [searchByRadius_fst]
  have hcand : radiusCandidates numStr upstream dist bbox now lat lng radiusKm
      limit maxPages st = [] := by
    unfold radiusCandidates
    rw [List.filter_eq_nil_iff]
    intro a ha
    obtain ⟨t, ht, rfl⟩ := List.mem_map.1 ha
    simp only [decide_eq_true_eq]
    intro hle
    have hd := hdist lat lng t.lat t.lng
    have := distOrZero_annotated t _ radiusKm hle
    linarith
  rw [hcand]
  simp [List.insertionSort]

/-- C7 (amended): a radius query with a negative radius returns the
empty result set — every annotated distance is non-negative, so the
`distance ≤ radiusKm` filter discards everything.  (A zero radius is
not degenerate-empty: `radius || 100` treats `0` as absent, see the
counterexample.) -/
theorem post_negative_radius_empty (numStr : ℚ → String)
    (upstream : BoundingBox → ℕ → ℕ → List String → FetchOutcome)
    (dist : ℚ → ℚ → ℚ → ℚ → ℚ) (bbox : ℚ → ℚ → ℚ → BoundingBox)
    (now : ℤ) (body : PostBody) (st : St) (lat lon r : ℚ)
    (hlat : body.lat = some lat) (hlon : body.lon = some lon)
    (hr : body.radius = some r) (hneg : r < 0)
    (hdist : ∀ a b c d, 0 ≤ dist a b c d) :
    (POST numStr upstream dist bbox now body st).1 =
      PostResult.radiusResp true [] (mkRadiusSummary lat lon r []) := by
  unfold POST
  rw [hlat, hlon]
  dsimp only
  have hcond : body.mode = some "radius" ∨ truthyQ body.radius = true := by
    refine Or.inr ?_
    rw [hr]
    simp [truthyQ]
    exact ne_of_lt hneg
  rw [if_pos hcond]
  have hrq : jsOrQ body.radius 100 = r := by
    rw [hr]
    unfold jsOrQ
    dsimp only
    rw [if_neg (ne_of_lt hneg)]
  rw [hrq]
  rw [searchByRadius_neg_empty numStr upstream dist bbox now lat lon r
    (jsOrNat body.limit 100) (jsOrNat body.maxPages 5) st hneg hdist]

/-- C10: when zero stations survive a radius query, the endpoint still
answers with `success: true` and `totalStations = 0`, but the summary
degenerates exactly as the code computes it: `averageAQI` is forced to
`0` by the `|| 0` guard after the `0/0 = NaN` division, `highestAQI` is
`-Infinity` (`Math.max` of an empty spread) and `lowestAQI` is
`Infinity` (`Math.min` of an empty spread). -/
theorem post_empty_result_summary (numStr : ℚ → String)
    (upstream : BoundingBox → ℕ → ℕ → List String → FetchOutcome)
    (dist : ℚ → ℚ → ℚ → ℚ → ℚ) (bbox : ℚ → ℚ → ℚ → BoundingBox)
    (now : ℤ) (body : PostBody) (st : St) (lat lon : ℚ)
    (hlat : body.lat = some lat) (hlon : body.lon = some lon)
    (hcond : body.mode = some "radius" ∨ truthyQ body.radius = true)
    (hempty : (searchByRadius numStr upstream dist bbox now lat lon (jsOrQ body.radius 100)
      (jsOrNat body.limit 100) (jsOrNat body.maxPages 5) st).1 = []) :
    (POST numStr upstream dist bbox now body st).1 =
      PostResult.radiusResp true []
        (mkRadiusSummary lat lon (jsOrQ body.radius 100) []) ∧
    (mkRadiusSummary lat lon (jsOrQ body.radius 100) []).totalStations = 0 ∧
    (mkRadiusSummary lat lon (jsOrQ body.radius 100) []).averageAQI = JsVal.num 0 ∧
    (mkRadiusSummary lat lon (jsOrQ body.radius 100) []).highestAQI = JsVal.negInf ∧
    (mkRadiusSummary lat lon (jsOrQ body.radius 100) []).lowestAQI = JsVal.posInf := by
  refine ⟨?_, rfl, ?_, rfl, rfl⟩
  · unfold POST
    rw [hlat, hlon]
    dsimp only
    rw [if_pos hcond, hempty]
  · simp [mkRadiusSummary, jsDiv, jsValOrZero]

end OpenaqRoute

namespace Overpass

open JsSem

lemma facilityKey_mkFacility (dist : ℚ → ℚ → ℚ → ℚ → ℚ) (uLat uLng : ℚ)
    (e : OverpassElement) (k : String × ℤ × ℤ) (hk : elemKey e = some k) :
    facilityKey (mkFacility dist uLat uLng e) = k := by
  unfold elemKey at hk
  split at hk
  · injection hk with hk
  · exact absurd hk (by simp)

lemma parseGo_filter_of_mem_seen (dist : ℚ → ℚ → ℚ → ℚ → ℚ) (uLat uLng : ℚ)
    (k : String × ℤ × ℤ) :
    ∀ (elements : List OverpassElement) (seen : List (String × ℤ × ℤ)), k ∈ seen →
      (parseGo dist uLat uLng elements seen).filter
        (fun f => decide (facilityKey f = k)) = [] := by
  intro elements
  induction elements with
  | nil => intro seen hk; rfl
  | cons e rest ih =>
      intro seen hk
      rw [parseGo]
      cases hke : elemKey e with
      | none =>
          dsimp only
          exact ih seen hk
      | some key =>
          dsimp only
          by_cases hkk : key ∈ seen
          · rw [if_pos hkk]
            exact ih seen hk
          · rw [if_neg hkk]
            have hne : facilityKey (mkFacility dist uLat uLng e) ≠ k := by
              rw [facilityKey_mkFacility dist uLat uLng e key hke]
              intro hcontra
              exact hkk (hcontra ▸ hk)
            rw [List.filter_cons_of_neg (by simpa using hne)]
            exact ih (key :: seen) (List.mem_cons_of_mem key hk)

lemma parseGo_filter_first (dist : ℚ → ℚ → ℚ → ℚ → ℚ) (uLat uLng : ℚ)
    (k : String × ℤ × ℤ) :
    ∀ (elements : List OverpassElement) (seen : List (String × ℤ × ℤ)), k ∉ seen →
      (parseGo dist uLat uLng elements seen).filter
        (fun f => decide (facilityKey f = k)) =
      ((elements.filter (fun e => decide (elemKey e = some k))).head?.map
        (mkFacility dist uLat uLng)).toList := by
  intro elements
  induction elements with
  | nil => intro seen hk; rfl
  | cons e rest ih =>
      intro seen hk
      rw [parseGo]
      cases hke : elemKey e with
      | none =>
          dsimp only
          rw [List.filter_cons_of_neg (by simp [hke])]
          exact ih seen hk
      | some key =>
          dsimp only
          by_cases hkey : key = k
          · subst hkey
            rw [if_neg hk,
              List.filter_cons_of_pos
                (by simpa using facilityKey_mkFacility dist uLat uLng e key hke),
              parseGo_filter_of_mem_seen dist uLat uLng key rest (key :: seen)
                (List.mem_cons_self key seen),
              List.filter_cons_of_pos (by simp [hke])]
            rfl
          · rw [List.filter_cons_of_neg (by simp [hke, hkey])]
            by_cases hkk : key ∈ seen
            · rw [if_pos hkk]
              exact ih seen hk
            · rw [if_neg hkk]
              have hne : facilityKey (mkFacility dist uLat uLng e) ≠ k := by
                rw [facilityKey_mkFacility dist uLat uLng e key hke]
                exact hkey
              rw [List.filter_cons_of_neg (by simpa using hne)]
              exact ih (key :: seen) (by
                intro hcontra
                rcases List.mem_cons.1 hcontra with h | h
                · exact hkey h.symm
                · exact hk h)

/-- C5: `parseOverpassResponse` deduplicates by the composite key of
resolved name and coordinates rounded to 4 decimal degrees: whenever at
least one element resolves to key `k` (in particular when two records
share a name and rounded coordinates), exactly one facility with that
key survives in the result, and it is exactly the facility built from
the first-seen element — later duplicates are dropped with no
field-level merge. -/
theorem parseOverpass_dedup_first_wins (dist : ℚ → ℚ → ℚ → ℚ → ℚ)
    (elements : List OverpassElement) (userLat userLng : ℚ)
    (k : String × ℤ × ℤ) (e0 : OverpassElement)
    (hfirst : (elements.filter (fun e => decide (elemKey e = some k))).head? = some e0) :
    (parseOverpassResponse dist elements userLat userLng).filter
      (fun f => decide (facilityKey f = k)) = [mkFacility dist userLat userLng e0] := by
  have hbase := parseGo_filter_first dist userLat userLng k elements []
    (List.not_mem_nil k)
  rw [hfirst] at hbase
  unfold parseOverpassResponse
  have hperm := (List.perm_insertionSort fdistLe
    (parseGo dist userLat userLng elements [])).filter
    (fun f => decide (facilityKey f = k))
  rw [hbase] at hperm
  exact List.perm_singleton.1 hperm

end Overpass

namespace OpenaqRoute

open JsSem AirTypes

/-- Witness for C3 at a concrete stub: a first query at time 0 on an
empty cache and a second at time 1 return the same response with no
second fetch, and a concrete expired one-entry cache read misses. -/
theorem cache_expiry_and_hit_witness :
    (∀ (now : ℤ) (cache : Cache) (key : BoundsKey) (data : BoundsResponse) (t : ℤ),
      cacheLookup cache key = some (data, t) → CACHE_DURATION < now - t →
      (getCachedData now cache key).1 = none) ∧
    (searchByBounds (fun _ => "") (fun _ _ _ _ => FetchOutcome.ok ⟨none, none⟩) 1
        ⟨1, 0, 1, 0⟩ 100 1 defaultParameters
        (searchByBounds (fun _ => "") (fun _ _ _ _ => FetchOutcome.ok ⟨none, none⟩) 0
          ⟨1, 0, 1, 0⟩ 100 1 defaultParameters ⟨[], 0⟩).2).1 =
      (searchByBounds (fun _ => "") (fun _ _ _ _ => FetchOutcome.ok ⟨none, none⟩) 0
        ⟨1, 0, 1, 0⟩ 100 1 defaultParameters ⟨[], 0⟩).1 ∧
    (searchByBounds (fun _ => "") (fun _ _ _ _ => FetchOutcome.ok ⟨none, none⟩) 1
        ⟨1, 0, 1, 0⟩ 100 1 defaultParameters
        (searchByBounds (fun _ => "") (fun _ _ _ _ => FetchOutcome.ok ⟨none, none⟩) 0
          ⟨1, 0, 1, 0⟩ 100 1 defaultParameters ⟨[], 0⟩).2).2.fetches =
      (searchByBounds (fun _ => "") (fun _ _ _ _ => FetchOutcome.ok ⟨none, none⟩) 0
        ⟨1, 0, 1, 0⟩ 100 1 defaultParameters ⟨[], 0⟩).2.fetches :=
  cache_expiry_and_hit (fun _ => "") (fun _ _ _ _ => FetchOutcome.ok ⟨none, none⟩)
    0 1 ⟨1, 0, 1, 0⟩ 100 1 defaultParameters ⟨[], 0⟩ ⟨none, none⟩
    rfl rfl (by norm_num) (by norm_num [CACHE_DURATION])

/-- Witness for C4 at a concrete stub upstream, and at a loop state
whose accumulator already holds `2 × limit` stations. -/
theorem radius_page_calls_bounded_witness :
    ((searchByRadius (fun _ => "") (fun _ _ _ _ => FetchOutcome.fetchError)
        (fun _ _ _ _ => 0) (fun _ _ _ => ⟨1, 0, 1, 0⟩) 0 0 0 10 1 5 ⟨[], 0⟩).2.fetches
      ≤ (0 : ℕ) + 5) ∧
    (radiusGo (fun _ => "") (fun _ _ _ _ => FetchOutcome.fetchError) 0 ⟨1, 0, 1, 0⟩ 1 5 1
        [{ id := none, name := "s", location := "s", city := none, country := none,
           lat := 0, lng := 0, aqi := none, pm25 := none, no2 := none, co := none,
           o3 := none, so2 := none, pm10 := none, lastUpdated := none, distance := none,
           source := none },
         { id := none, name := "s", location := "s", city := none, country := none,
           lat := 0, lng := 0, aqi := none, pm25 := none, no2 := none, co := none,
           o3 := none, so2 := none, pm10 := none, lastUpdated := none, distance := none,
           source := none }] ⟨[], 0⟩).2.fetches ≤ (0 : ℕ) + 1 := by
  constructor
  · exact (radius_page_calls_bounded (fun _ => "") (fun _ _ _ _ => FetchOutcome.fetchError)
      (fun _ _ _ _ => 0) (fun _ _ _ => ⟨1, 0, 1, 0⟩) 0 0 0 10 1 5 ⟨[], 0⟩).1
  · exact (radius_page_calls_bounded (fun _ => "") (fun _ _ _ _ => FetchOutcome.fetchError)
      (fun _ _ _ _ => 0) (fun _ _ _ => ⟨1, 0, 1, 0⟩) 0 0 0 10 1 5 ⟨[], 0⟩).2 1 _ ⟨[], 0⟩
      (by norm_num)

end OpenaqRoute

namespace OpenaqRoute

open JsSem AirTypes

set_option maxRecDepth 4000 in
/-- Witness for C10: a radius query against an upstream that fails
yields zero stations and the degenerate summary. -/
theorem post_empty_result_summary_witness :
    (POST (fun _ => "") (fun _ _ _ _ => FetchOutcome.fetchError) (fun _ _ _ _ => 0)
        (fun _ _ _ => ⟨1, 0, 1, 0⟩) 0
        { lat := some 3, lon := some 101, radius := some 1, limit := none, mode := none,
          page := none, maxPages := none, bounds := none } ⟨[], 0⟩).1 =
      PostResult.radiusResp true []
        (mkRadiusSummary 3 101 (jsOrQ (some 1) 100) []) ∧
    (mkRadiusSummary 3 101 (jsOrQ (some 1) 100) []).totalStations = 0 ∧
    (mkRadiusSummary 3 101 (jsOrQ (some 1) 100) []).averageAQI = JsVal.num 0 ∧
    (mkRadiusSummary 3 101 (jsOrQ (some 1) 100) []).highestAQI = JsVal.negInf ∧
    (mkRadiusSummary 3 101 (jsOrQ (some 1) 100) []).lowestAQI = JsVal.posInf :=
  post_empty_result_summary (fun _ => "") (fun _ _ _ _ => FetchOutcome.fetchError)
    (fun _ _ _ _ => 0) (fun _ _ _ => ⟨1, 0, 1, 0⟩) 0
    { lat := some 3, lon := some 101, radius := some 1, limit := none, mode := none,
      page := none, maxPages := none, bounds := none } ⟨[], 0⟩ 3 101 rfl rfl
    (Or.inr (by norm_num [truthyQ]))
    (by
      rw [searchByRadius_fst]
      norm_num [radiusCandidates, jsOrQ, jsOrNat]
      rw [radiusGo]
      norm_num [searchByBounds, getCachedData, cacheLookup, cacheDelete, boundsKey,
        defaultParameters, List.insertionSort])

end OpenaqRoute

namespace OpenaqRoute

open JsSem AirTypes

/-- C7 counterexample: the claim says every radius query with
radius ≤ 0 returns empty, but for `radius = 0` with `mode = "radius"`
the handler's `radius || 100` default replaces the zero with 100 km, so
a stub station near the origin is returned and the result set is not
empty. -/
theorem post_zero_radius_returns_stations :
    postData (POST (fun _ => "")
      (fun _ _ _ _ => FetchOutcome.ok ⟨some [⟨some "A", none, none, 3, 101, []⟩], none⟩)
      (fun _ _ _ _ => 0) (fun _ _ _ => ⟨1, 0, 1, 0⟩) 0
      { lat := some 3, lon := some 101, radius := some 0, limit := none,
        mode := some "radius", page := none, maxPages := none, bounds := none }
      ⟨[], 0⟩).1 ≠ [] := by
  unfold POST
  dsimp only
  rw [if_pos (Or.inl rfl)]
  dsimp only
  unfold postData
  dsimp only
  rw [searchByRadius_fst]
  norm_num [radiusCandidates, jsOrQ, jsOrNat]
  rw [radiusGo]
  norm_num [searchByBounds, getCachedData, cacheLookup, cacheDelete, boundsKey,
    defaultParameters, mkBoundsResponse, metaFound, metaPage, metaLimit, mkStation,
    measurementsGet, jsOrStr, jsOrOptStr, distOrZero, List.insertionSort,
    List.orderedInsert]

end OpenaqRoute

namespace OpenaqRoute

open JsSem AirTypes

/-- Witness for C7 (amended): a radius-mode body with `radius = -5`
returns `success` with an empty station list. -/
theorem post_negative_radius_empty_witness :
    (POST (fun _ => "") (fun _ _ _ _ => FetchOutcome.fetchError) (fun _ _ _ _ => 0)
        (fun _ _ _ => ⟨1, 0, 1, 0⟩) 0
        { lat := some 3, lon := some 101, radius := some (-5), limit := none, mode := none,
          page := none, maxPages := none, bounds := none } ⟨[], 0⟩).1 =
      PostResult.radiusResp true [] (mkRadiusSummary 3 101 (-5) []) :=
  post_negative_radius_empty (fun _ => "") (fun _ _ _ _ => FetchOutcome.fetchError)
    (fun _ _ _ _ => 0) (fun _ _ _ => ⟨1, 0, 1, 0⟩) 0
    { lat := some 3, lon := some 101, radius := some (-5), limit := none, mode := none,
      page := none, maxPages := none, bounds := none } ⟨[], 0⟩ 3 101 (-5)
    rfl rfl rfl (by norm_num) (fun _ _ _ _ => le_refl 0)

end OpenaqRoute

namespace WaqiRoute

open JsSem AirTypes

/-- C2 counterexample: the claim says every radius query returns its
records sorted ascending by distance, but the WAQI route's
`searchByRadius` has no sort step.  With a stub upstream whose first
station is 9 km away and whose second is 1 km away (radius 10 km), the
returned list keeps the upstream order 9, 1 and is not ascending. -/
theorem waqi_radius_not_sorted :
    ¬ List.Pairwise OpenaqRoute.distLe
      (searchByRadius (fun _ => "")
        (fun _ => WaqiOutcome.ok (some
          [⟨some 9, some 1, some "F", none, none, none, none, none, none, none, none,
            none, none⟩,
           ⟨some 1, some 1, some "N", none, none, none, none, none, none, none, none,
            none, none⟩]))
        (fun _ _ slat _ => slat) (fun _ _ _ => ⟨1, 0, 1, 0⟩) 0 0 0 10 5 ⟨[], 0⟩).1 := by
  rw [waqi_searchByRadius_fst]
  norm_num [searchByBounds, getCachedData, cacheLookup, cacheDelete, parseGo,
    mkWaqiStation, truthyQ, jsOrStr, setCachedData, OpenaqRoute.distOrZero, jsOrQ,
    List.pairwise_cons, OpenaqRoute.distLe]

end WaqiRoute

/-- Witness for C1: a concrete station returned by each route (stub
upstream, distance 5, radius 10) is annotated with
`distance = some 5 ≤ 10`. -/
theorem radius_results_within_radius_witness :
    (∃ d, ({ OpenaqRoute.mkStation (fun _ => "") ⟨some "A", none, none, 3, 101, []⟩ with
        distance := some (5:ℚ) } : AirTypes.AirQualityStation).distance
          = some d ∧ d ≤ 10) ∧
    (∃ d, ({ WaqiRoute.mkWaqiStation (fun _ => "") ⟨some 1, some 1, some "N", none, none,
        none, none, none, none, none, none, none, none⟩ with
        distance := some (5:ℚ) } : AirTypes.AirQualityStation).distance
          = some d ∧ d ≤ 10) := by
  constructor
  · refine (radius_results_within_radius (fun _ => "") (fun _ => "")
      (fun _ _ _ _ => OpenaqRoute.FetchOutcome.ok
        ⟨some [⟨some "A", none, none, 3, 101, []⟩], none⟩)
      (fun _ => WaqiRoute.WaqiOutcome.ok (some [⟨some 1, some 1, some "N", none, none,
        none, none, none, none, none, none, none, none⟩]))
      (fun _ _ _ _ => 5) (fun _ _ _ => ⟨1, 0, 1, 0⟩) 0 0 0 0 10 100 5 100
      ⟨[], 0⟩ ⟨[], 0⟩).1 _ ?_
    rw [OpenaqRoute.searchByRadius_fst]
    norm_num [OpenaqRoute.radiusCandidates, JsSem.jsOrQ]
    rw [OpenaqRoute.radiusGo]
    norm_num [OpenaqRoute.searchByBounds, OpenaqRoute.getCachedData,
      OpenaqRoute.cacheLookup, OpenaqRoute.cacheDelete, OpenaqRoute.boundsKey,
      OpenaqRoute.defaultParameters, OpenaqRoute.mkBoundsResponse, OpenaqRoute.metaFound,
      OpenaqRoute.metaPage, OpenaqRoute.metaLimit, OpenaqRoute.mkStation,
      OpenaqRoute.measurementsGet, JsSem.jsOrStr, JsSem.jsOrOptStr,
      OpenaqRoute.distOrZero, List.insertionSort, List.orderedInsert]
  · refine (radius_results_within_radius (fun _ => "") (fun _ => "")
      (fun _ _ _ _ => OpenaqRoute.FetchOutcome.ok
        ⟨some [⟨some "A", none, none, 3, 101, []⟩], none⟩)
      (fun _ => WaqiRoute.WaqiOutcome.ok (some [⟨some 1, some 1, some "N", none, none,
        none, none, none, none, none, none, none, none⟩]))
      (fun _ _ _ _ => 5) (fun _ _ _ => ⟨1, 0, 1, 0⟩) 0 0 0 0 10 100 5 100
      ⟨[], 0⟩ ⟨[], 0⟩).2 _ ?_
    rw [WaqiRoute.waqi_searchByRadius_fst]
    norm_num [WaqiRoute.searchByBounds, WaqiRoute.getCachedData, WaqiRoute.cacheLookup,
      WaqiRoute.cacheDelete, WaqiRoute.setCachedData, WaqiRoute.parseGo,
      WaqiRoute.mkWaqiStation, JsSem.truthyQ, JsSem.jsOrStr, OpenaqRoute.distOrZero,
      JsSem.jsOrQ]

/-- Witness for C5: two elements with the same name and identical
coordinates collapse to the single facility built from the first
element. -/
theorem parseOverpass_dedup_first_wins_witness :
    (Overpass.parseOverpassResponse (fun _ _ _ _ => 0)
      [⟨"node", 1, some 3, some 101, none,
        some ⟨some "H", none, none, none, none, none, none, none, none, none, none,
          none, none, none⟩⟩,
       ⟨"node", 2, some 3, some 101, none,
        some ⟨some "H", none, none, none, none, none, none, none, none, none, none,
          none, none, none⟩⟩] 3 101).filter
      (fun f => decide (Overpass.facilityKey f = ("H", 30000, 1010000))) =
      [Overpass.mkFacility (fun _ _ _ _ => 0) 3 101
        ⟨"node", 1, some 3, some 101, none,
          some ⟨some "H", none, none, none, none, none, none, none, none, none, none,
            none, none, none⟩⟩] :=
  Overpass.parseOverpass_dedup_first_wins (fun _ _ _ _ => 0)
    [⟨"node", 1, some 3, some 101, none,
      some ⟨some "H", none, none, none, none, none, none, none, none, none, none,
        none, none, none⟩⟩,
     ⟨"node", 2, some 3, some 101, none,
      some ⟨some "H", none, none, none, none, none, none, none, none, none, none,
        none, none, none⟩⟩] 3 101 ("H", 30000, 1010000)
    ⟨"node", 1, some 3, some 101, none,
      some ⟨some "H", none, none, none, none, none, none, none, none, none, none,
        none, none, none⟩⟩
    (by
      norm_num [Overpass.elemKey, Overpass.resolvedLat, Overpass.resolvedLon,
        Overpass.resolvedName, Overpass.emptyTags, JsSem.jsOrOptQ, JsSem.jsOrOptStr,
        JsSem.jsOrStr, JsSem.truthyQ, JsSem.toFixed4]
      decide)

namespace WaqiRoute

open JsSem AirTypes

lemma searchByBoundsE_agrees (numStr : ℚ → String) (upstream : BoundingBox → WaqiOutcome)
    (now : ℤ) (bounds : BoundingBox) (limit : ℕ) (st : WSt) :
    searchByBoundsE numStr (fun b => WaqiFetch.returns (upstream b)) now bounds limit st =
      (Except.ok (searchByBounds numStr upstream now bounds limit st).1,
        (searchByBounds numStr upstream now bounds limit st).2) := by
  unfold searchByBoundsE searchByBounds
  dsimp only
  rcases hgc : getCachedData now st.cache ⟨bounds.north, bounds.south, bounds.east, bounds.west⟩
    with ⟨o, cache1⟩
  cases o with
  | some cached => rfl
  | none => cases upstream bounds <;> rfl

end WaqiRoute

/-- C6 counterexample: the claim says a thrown fetch error yields the
empty result set for that provider rather than propagating a fatal
error, but the WAQI route's `searchByBounds` has no try/catch — with an
upstream whose fetch rejects, the bounds search raises instead of
returning a station list, and the handler's catch-all turns the whole
query into the 500 `serverError`, not an empty success. -/
theorem waqi_thrown_fetch_fatal :
    (WaqiRoute.searchByBoundsE (fun _ => "") (fun _ => WaqiRoute.WaqiFetch.throw) 0
      ⟨1, 0, 1, 0⟩ 100 ⟨[], 0⟩).1 = Except.error () ∧
    (WaqiRoute.POST (fun _ => "") (fun _ => WaqiRoute.WaqiFetch.throw) (fun _ _ _ _ => 0)
      (fun _ _ _ => ⟨1, 0, 1, 0⟩) 0
      { lat := some 3, lon := some 101, radius := some 10, limit := none, mode := none,
        bounds := none } ⟨[], 0⟩).1 = WaqiRoute.WPostResult.serverError := by
  constructor
  · rfl
  · unfold WaqiRoute.POST
    dsimp only
    rw [if_pos (Or.inr (by norm_num [JsSem.truthyQ]))]
    rfl

/-- C6 (amended): a provider failure is absorbed exactly where the
source catches it.  In the OpenAQ route both a non-success HTTP status
and a thrown fetch yield the empty result set (`stations = []`,
`total = 0`, `hasMore = false`) because the fetch sits inside a
try/catch.  In the WAQI route a resolved failure — non-success HTTP
status or a payload whose `status` is not `"ok"` — yields an empty
station list, but a thrown fetch is not caught in `searchByBounds` and
escapes it as an exception (surfacing as the handler's catch-all 500
for the whole query). -/
theorem provider_failure_isolation (numStr wnumStr : ℚ → String)
    (upstream : AirTypes.BoundingBox → ℕ → ℕ → List String → OpenaqRoute.FetchOutcome)
    (wupstreamE : AirTypes.BoundingBox → WaqiRoute.WaqiFetch)
    (now wnow : ℤ) (bounds wbounds : AirTypes.BoundingBox) (limit page wlimit : ℕ)
    (parameters : List String) (st : OpenaqRoute.St) (wst : WaqiRoute.WSt)
    (hmiss : (OpenaqRoute.getCachedData now st.cache
      (OpenaqRoute.boundsKey bounds limit page parameters)).1 = none)
    (herr : upstream bounds limit page parameters = OpenaqRoute.FetchOutcome.fetchError ∨
      upstream bounds limit page parameters = OpenaqRoute.FetchOutcome.notOk)
    (wmiss : (WaqiRoute.getCachedData wnow wst.cache
      ⟨wbounds.north, wbounds.south, wbounds.east, wbounds.west⟩).1 = none) :
    (OpenaqRoute.searchByBounds numStr upstream now bounds limit page parameters st).1 =
      { stations := [], total := 0, hasMore := false } ∧
    ((wupstreamE wbounds = WaqiRoute.WaqiFetch.returns WaqiRoute.WaqiOutcome.notOk ∨
      wupstreamE wbounds = WaqiRoute.WaqiFetch.returns WaqiRoute.WaqiOutcome.statusBad) →
      (WaqiRoute.searchByBoundsE wnumStr wupstreamE wnow wbounds wlimit wst).1 =
        Except.ok []) ∧
    (wupstreamE wbounds = WaqiRoute.WaqiFetch.throw →
      (WaqiRoute.searchByBoundsE wnumStr wupstreamE wnow wbounds wlimit wst).1 =
        Except.error ()) := by
  refine ⟨OpenaqRoute.openaq_searchByBounds_error_empty numStr upstream now bounds limit
    page parameters st hmiss herr, ?_, ?_⟩
  · intro h
    unfold WaqiRoute.searchByBoundsE
    dsimp only
    rcases hgc : WaqiRoute.getCachedData wnow wst.cache
        ⟨wbounds.north, wbounds.south, wbounds.east, wbounds.west⟩
      with ⟨o, cache1⟩
    rw [hgc] at wmiss
    simp only at wmiss
    subst wmiss
    rcases h with h | h <;> rw [h]
  · intro h
    unfold WaqiRoute.searchByBoundsE
    dsimp only
    rcases hgc : WaqiRoute.getCachedData wnow wst.cache
        ⟨wbounds.north, wbounds.south, wbounds.east, wbounds.west⟩
      with ⟨o, cache1⟩
    rw [hgc] at wmiss
    simp only at wmiss
    subst wmiss
    rw [h]

/-- Witness for C6 (amended), applying the theorem at concrete stubs:
an OpenAQ upstream that throws yields the empty bounds response, a WAQI
upstream that resolves with a non-success status yields `ok []`, and a
WAQI upstream that throws makes the bounds search raise. -/
theorem provider_failure_isolation_witness :
    (OpenaqRoute.searchByBounds (fun _ => "")
      (fun _ _ _ _ => OpenaqRoute.FetchOutcome.fetchError) 0 ⟨1, 0, 1, 0⟩ 100 1
      OpenaqRoute.defaultParameters ⟨[], 0⟩).1 =
      { stations := [], total := 0, hasMore := false } ∧
    (WaqiRoute.searchByBoundsE (fun _ => "")
      (fun _ => WaqiRoute.WaqiFetch.returns WaqiRoute.WaqiOutcome.notOk) 0
      ⟨1, 0, 1, 0⟩ 100 ⟨[], 0⟩).1 = Except.ok [] ∧
    (WaqiRoute.searchByBoundsE (fun _ => "") (fun _ => WaqiRoute.WaqiFetch.throw) 0
      ⟨1, 0, 1, 0⟩ 200 ⟨[], 0⟩).1 = Except.error () :=
  ⟨(provider_failure_isolation (fun _ => "") (fun _ => "")
      (fun _ _ _ _ => OpenaqRoute.FetchOutcome.fetchError)
      (fun _ => WaqiRoute.WaqiFetch.returns WaqiRoute.WaqiOutcome.notOk) 0 0
      ⟨1, 0, 1, 0⟩ ⟨1, 0, 1, 0⟩ 100 1 100 OpenaqRoute.defaultParameters ⟨[], 0⟩ ⟨[], 0⟩
      rfl (Or.inl rfl) rfl).1,
    (provider_failure_isolation (fun _ => "") (fun _ => "")
      (fun _ _ _ _ => OpenaqRoute.FetchOutcome.fetchError)
      (fun _ => WaqiRoute.WaqiFetch.returns WaqiRoute.WaqiOutcome.notOk) 0 0
      ⟨1, 0, 1, 0⟩ ⟨1, 0, 1, 0⟩ 100 1 100 OpenaqRoute.defaultParameters ⟨[], 0⟩ ⟨[], 0⟩
      rfl (Or.inl rfl) rfl).2.1 (Or.inl rfl),
    (provider_failure_isolation (fun _ => "") (fun _ => "")
      (fun _ _ _ _ => OpenaqRoute.FetchOutcome.fetchError)
      (fun _ => WaqiRoute.WaqiFetch.throw) 0 0
      ⟨1, 0, 1, 0⟩ ⟨1, 0, 1, 0⟩ 100 1 200 OpenaqRoute.defaultParameters ⟨[], 0⟩ ⟨[], 0⟩
      rfl (Or.inl rfl) rfl).2.2 rfl⟩
